import Mathlib

/-!
EllenAI (src/apps.js): conversation history and provider request adapter.

A shallow embedding of the parts of the class EllenAI that own the conversation
history and build the provider requests: the provider table of the constructor,
sendMessage, getAIResponse and clearChat; of the settings methods saveSettings
and loadSettings; and of the two text functions handleError and formatMessage.

* JavaScript values are embedded as the type JsVal, thrown values as JsError.
* An instance is the record of the fields the modelled methods read or write;
  a method takes the instance and returns the instance after the call together
  with what the call returned or threw.
* The HTTP collaborator is an input: a function saying how fetch settles for
  the request it is given.  A turn is modelled step by step around the await:
  sendMessageEnter (guard, flag raised), getAIResponseStart (up to the call of
  fetch, giving the instance that waits), getAIResponseResume (after fetch has
  settled) and sendMessageLeave (flag lowered, outcome rendered).  sendMessage
  and getAIResponse are these steps run to completion, with no other handler
  in between; the guard on isTyping keeps a second turn from starting meanwhile.
* DOM effects (rendering, notifications, focus) are outside the model; of
  sendMessage only the way the call ends is recorded.
* localStorage is a list of keys with their texts; a stored text is kept as the
  value JSON.parse gives for it.  Writing to it is taken to succeed.
* Strings are lists of characters; the patterns this program searches for are
  ASCII, so code points and UTF-16 code units give the same matches.
-/

namespace Apps

/-! ## JavaScript values -/

/-- A JavaScript number as far as this program handles one.  The program only
stores numbers, tests them for truthiness and copies them into request bodies, so
a finite double is represented by its rational value (both zeros are fin 0). -/
inductive JsNum where
  | nan
  | inf (negative : Bool)
  | fin (q : ℚ)
  deriving DecidableEq

/-- A JavaScript value: undefined plus the values JSON.parse can return.  An
object is the list of its own properties in insertion order (the first binding of
a name is the one a read sees). -/
inductive JsVal where
  | undefined
  | null
  | bool (b : Bool)
  | num (n : JsNum)
  | str (s : String)
  | arr (items : List JsVal)
  | obj (fields : List (String × JsVal))

/-- Values a running turn can throw.  error is new Error(arg), whose message is
the string conversion of arg; typeError is the TypeError the engine raises (its
message text is engine specific, detail names the failing operation); host is a
rejection coming from the HTTP collaborator (fetch or response.json()). -/
inductive JsError where
  | error (arg : JsVal)
  | typeError (detail : String)
  | host (message : String)

/-- ToBoolean, as applied by the operators ! and ||. -/
def truthy : JsVal → Bool
  | .undefined => false
  | .null => false
  | .bool b => b
  | .num .nan => false
  | .num (.inf _) => true
  | .num (.fin q) => decide (q ≠ 0)
  | .str s => decide (s ≠ "")
  | .arr _ => true
  | .obj _ => true

/-- The property read v.name for a name that no built-in prototype defines
(this program reads choices, message, content and error this way).  Reading a
property of null or undefined throws a TypeError; primitives, strings and arrays
have no such property; an object yields its own property or undefined. -/
def getProp (v : JsVal) (name : String) : Except JsError JsVal :=
  match v with
  | .undefined => .error (.typeError ("read " ++ name ++ " of undefined"))
  | .null => .error (.typeError ("read " ++ name ++ " of null"))
  | .obj fields => .ok ((fields.lookup name).getD .undefined)
  | _ => .ok .undefined

/-- The indexed read v[0].  An array yields its first element, a string its
first character as a one-character string (JavaScript yields the first UTF-16
code unit), an object its own property named 0; undefined when there is none. -/
def getIndex0 (v : JsVal) : Except JsError JsVal :=
  match v with
  | .undefined => .error (.typeError "read 0 of undefined")
  | .null => .error (.typeError "read 0 of null")
  | .arr items => .ok (items.head?.getD .undefined)
  | .str s =>
    match s.data with
    | [] => .ok .undefined
    | c :: _ => .ok (.str (String.mk [c]))
  | .obj fields => .ok ((fields.lookup "0").getD .undefined)
  | _ => .ok .undefined

/-- White space and line terminators removed by String.prototype.trim. -/
def isJsWhitespace (c : Char) : Bool :=
  let n := c.toNat
  n == 0x09 || n == 0x0A || n == 0x0B || n == 0x0C || n == 0x0D || n == 0x20 ||
  n == 0xA0 || n == 0x1680 || (0x2000 ≤ n && n ≤ 0x200A) || n == 0x2028 ||
  n == 0x2029 || n == 0x202F || n == 0x205F || n == 0x3000 || n == 0xFEFF

/-- String.prototype.trim on the list of characters. -/
def trimChars (cs : List Char) : List Char :=
  ((cs.dropWhile isJsWhitespace).reverse.dropWhile isJsWhitespace).reverse

/-- String.prototype.trim. -/
def jsTrim (s : String) : String :=
  String.mk (trimChars s.data)

/-! ## Provider table (constructor, lines 12-50) -/

/-- One entry of the models array of a provider. -/
structure ModelInfo where
  id : String
  name : String
  deriving DecidableEq

/-- One provider configuration of this.providers. -/
structure ProviderDescriptor where
  name : String
  baseUrl : String
  models : List ModelInfo
  keyFormat : String
  deriving DecidableEq

/-- The object literal this.providers: its four own properties. -/
def providers : List (String × ProviderDescriptor) :=
  [ ("openai",
      { name := "OpenAI"
        baseUrl := "https://api.openai.com/v1/chat/completions"
        models := [ ⟨"gpt-3.5-turbo", "GPT-3.5 Turbo (Faster, Cheaper)"⟩,
                    ⟨"gpt-4", "GPT-4 (More Capable)"⟩,
                    ⟨"gpt-4-turbo-preview", "GPT-4 Turbo"⟩ ]
        keyFormat := "sk-" }),
    ("deepseek",
      { name := "DeepSeek"
        baseUrl := "https://api.deepseek.com/v1/chat/completions"
        models := [ ⟨"deepseek-chat", "DeepSeek Chat"⟩,
                    ⟨"deepseek-coder", "DeepSeek Coder"⟩ ]
        keyFormat := "dp-" }),
    ("anthropic",
      { name := "Anthropic"
        baseUrl := "https://api.anthropic.com/v1/complete"
        models := [ ⟨"claude-2", "Claude 2"⟩,
                    ⟨"claude-instant", "Claude Instant"⟩ ]
        keyFormat := "sk-ant-" }),
    ("google",
      { name := "Google AI"
        baseUrl := "https://generativelanguage.googleapis.com/v1/models"
        models := [ ⟨"gemini-pro", "Gemini Pro"⟩,
                    ⟨"gemini-pro-vision", "Gemini Pro Vision"⟩ ]
        keyFormat := "AIza" }) ]

/-- The four provider identifiers of the table. -/
def knownProviders : List String :=
  ["openai", "deepseek", "anthropic", "google"]

/-- Property names every plain object inherits from Object.prototype; a read
this.providers[id] with such an id finds the inherited built-in. -/
def objectPrototypeKeys : List String :=
  ["constructor", "__defineGetter__", "__defineSetter__", "hasOwnProperty",
   "__lookupGetter__", "__lookupSetter__", "isPrototypeOf", "propertyIsEnumerable",
   "toString", "valueOf", "__proto__", "toLocaleString"]

/-- What the read this.providers[id] evaluates to. -/
inductive ProviderEntry where
  | descriptor (d : ProviderDescriptor)
  | inherited (key : String)
  | undefined
  deriving DecidableEq

/-- The read this.providers[id]: own properties first, then the prototype. -/
def lookupProvider (id : String) : ProviderEntry :=
  match providers.lookup id with
  | some d => .descriptor d
  | none => if id ∈ objectPrototypeKeys then .inherited id else .undefined

/-- The read entry.name as spliced into the template literal of line 173.  A
built-in function carries its own name (the constructor is Object);
Object.prototype, reached as __proto__, has no name property, which the
template renders as the text undefined. -/
def ProviderEntry.nameText : ProviderEntry → Except JsError String
  | .descriptor d => .ok d.name
  | .inherited key =>
    if key = "__proto__" then .ok "undefined"
    else if key = "constructor" then .ok "Object"
    else .ok key
  | .undefined => .error (.typeError "read name of undefined")

/-- The read provider.baseUrl of line 239; the inherited built-ins have no
such property. -/
def ProviderEntry.baseUrlProp : ProviderEntry → Except JsError JsVal
  | .descriptor d => .ok (.str d.baseUrl)
  | .inherited _ => .ok .undefined
  | .undefined => .error (.typeError "read baseUrl of undefined")


/-! ## Instance state and the HTTP collaborator -/

/-- The fields of an EllenAI instance read or written by the modelled methods. -/
structure EllenAI where
  apiKey : String
  apiProvider : String
  model : String
  conversationHistory : List JsVal
  isTyping : Bool
  maxTokens : JsNum
  temperature : JsNum

/-- The field values assigned by the constructor (lines 3-9). -/
def EllenAI.constructed : EllenAI :=
  { apiKey := ""
    apiProvider := "openai"
    model := "gpt-3.5-turbo"
    conversationHistory := []
    isTyping := false
    maxTokens := .fin 1000
    temperature := .fin (7 / 10) }

/-- The arguments of the fetch call of lines 239-243; body is the value handed
to JSON.stringify. -/
structure Request where
  url : JsVal
  method : String
  headers : List (String × String)
  body : JsVal

/-- What getAIResponse reads of a fetch response: ok, status, statusText and the
outcome of response.json(). -/
structure Response where
  ok : Bool
  status : Nat
  statusText : String
  json : Except JsError JsVal

/-- How the promise returned by fetch settles. -/
inductive FetchOutcome where
  | rejected (e : JsError)
  | fulfilled (r : Response)

/-- The object literal with the properties role and content. -/
def message (role : String) (content : JsVal) : JsVal :=
  .obj [("role", .str role), ("content", content)]

/-! ## getAIResponse (lines 163-262) -/

/-- Lines 165-170: push the user message, then keep the last 20 entries when
the length exceeds 20 (slice(-20)). -/
def appendUserTurn (history : List JsVal) (msg : String) : List JsVal :=
  let pushed := history ++ [message "user" (.str msg)]
  if pushed.length > 20 then pushed.drop (pushed.length - 20) else pushed

/-- The system prompt of the openai case. -/
def openaiSystemPrompt : String :=
  "You are Ellen, a helpful AI coding assistant. You help with programming, debugging, code review, and technical questions. Provide clear, concise, and practical answers."

/-- The system prompt of the deepseek case. -/
def deepseekSystemPrompt : String :=
  "You are Ellen, a helpful AI coding assistant."

/-- Lines 177-237: the initial headers and the switch over this.apiProvider,
giving requestBody and headers.  No case matches another identifier, which
leaves requestBody undefined. -/
def requestBodyAndHeaders (st : EllenAI) (msg : String) :
    JsVal × List (String × String) :=
  let headers := [("Content-Type", "application/json")]
  if st.apiProvider = "openai" then
    (.obj [("model", .str st.model),
           ("messages", .arr (message "system" (.str openaiSystemPrompt) ::
              st.conversationHistory)),
           ("max_tokens", .num st.maxTokens),
           ("temperature", .num st.temperature),
           ("stream", .bool false)],
     headers ++ [("Authorization", "Bearer " ++ st.apiKey)])
  else if st.apiProvider = "deepseek" then
    (.obj [("model", .str st.model),
           ("messages", .arr (message "system" (.str deepseekSystemPrompt) ::
              st.conversationHistory)),
           ("max_tokens", .num st.maxTokens),
           ("temperature", .num st.temperature)],
     headers ++ [("Authorization", "Bearer " ++ st.apiKey)])
  else if st.apiProvider = "anthropic" then
    (.obj [("model", .str st.model),
           ("prompt", .str ("\n\nHuman: " ++ msg ++ "\n\nAssistant: ")),
           ("max_tokens_to_sample", .num st.maxTokens),
           ("temperature", .num st.temperature)],
     headers ++ [("X-API-Key", st.apiKey)])
  else if st.apiProvider = "google" then
    (.obj [("model", .str st.model),
           ("prompt", .obj [("text", .str msg)]),
           ("temperature", .num st.temperature),
           ("candidateCount", .num (.fin 1))],
     headers ++ [("Authorization", "Bearer " ++ st.apiKey)])
  else
    (.undefined, headers)

/-- Lines 172-243 up to the call of fetch, on the state holding the already
appended history: the credential check, the provider read, the switch and the
read of provider.baseUrl.  The result is the request handed to fetch, or the
error thrown before fetch is called. -/
def buildRequest (st : EllenAI) (msg : String) : Except JsError Request :=
  if st.apiKey = "" then
    match (lookupProvider st.apiProvider).nameText with
    | .error e => .error e
    | .ok name =>
      .error (.error (.str
        ("API key not configured. Please set your " ++ name ++ " API key in settings.")))
  else
    let provider := lookupProvider st.apiProvider
    let bh := requestBodyAndHeaders st msg
    match provider.baseUrlProp with
    | .error e => .error e
    | .ok url => .ok { url := url, method := "POST", headers := bh.2, body := bh.1 }

/-- The optional chain v?.name: undefined when v is null or undefined. -/
def optChain (v : JsVal) (name : String) : Except JsError JsVal :=
  match v with
  | .undefined => .ok .undefined
  | .null => .ok .undefined
  | _ => getProp v name

/-- Lines 245-248, taken when response.ok is false: the thrown error.  A body
that does not parse is replaced by the empty object. -/
def statusError (r : Response) : JsError :=
  let errorData := match r.json with
    | .ok v => v
    | .error _ => .obj []
  match getProp errorData "error" with
  | .error e => e
  | .ok err =>
    match optChain err "message" with
    | .error e => e
    | .ok m =>
      if truthy m then .error m
      else .error (.str ("API Error: " ++ toString r.status ++ " " ++ r.statusText))

/-- Lines 252-256: the shape check of the parsed body and the read of
data.choices[0].message.content.  The three operands of || are evaluated left to
right and the first truthy negation throws. -/
def extractReply (data : JsVal) : Except JsError JsVal :=
  let invalid : JsError := .error (.str "Invalid response format from API")
  match getProp data "choices" with
  | .error e => .error e
  | .ok choices =>
    if !truthy choices then .error invalid
    else
      match getIndex0 choices with
      | .error e => .error e
      | .ok first =>
        if !truthy first then .error invalid
        else
          match getProp first "message" with
          | .error e => .error e
          | .ok msg =>
            if !truthy msg then .error invalid
            else getProp msg "content"

/-- Lines 245-261: what getAIResponse does with the settled response.  The
history is written only by the push of line 259. -/
def ingestResponse (st : EllenAI) (r : Response) : EllenAI × Except JsError JsVal :=
  if !r.ok then (st, .error (statusError r))
  else
    match r.json with
    | .error e => (st, .error e)
    | .ok data =>
      match extractReply data with
      | .error e => (st, .error e)
      | .ok aiResponse =>
        ({ st with conversationHistory :=
             st.conversationHistory ++ [message "assistant" aiResponse] },
         .ok aiResponse)

/-- The method getAIResponse(message).  The parameter net says how fetch settles
for the request it is given; no other handler runs while the call is suspended.
The result is the instance after the call and the value returned or thrown. -/
def EllenAI.getAIResponse (st : EllenAI) (msg : String) (net : Request → FetchOutcome) :
    EllenAI × Except JsError JsVal :=
  let st1 := { st with conversationHistory := appendUserTurn st.conversationHistory msg }
  match buildRequest st1 msg with
  | .error e => (st1, .error e)
  | .ok req =>
    match net req with
    | .rejected e => (st1, .error e)
    | .fulfilled r => ingestResponse st1 r

/-- Lines 165-243 of getAIResponse, up to the call of fetch: the instance as
it is while the call is suspended, which is what another handler would see, and
the request handed to fetch or the error thrown before fetch is called. -/
def EllenAI.getAIResponseStart (st : EllenAI) (msg : String) :
    EllenAI × Except JsError Request :=
  let st1 := { st with conversationHistory := appendUserTurn st.conversationHistory msg }
  (st1, buildRequest st1 msg)

/-- Lines 239-261 of getAIResponse, resumed on the suspended instance when
fetch has settled. -/
def getAIResponseResume (st : EllenAI) (outcome : FetchOutcome) :
    EllenAI × Except JsError JsVal :=
  match outcome with
  | .rejected e => (st, .error e)
  | .fulfilled r => ingestResponse st r

/-! ## sendMessage (lines 131-161) and clearChat (lines 390-395) -/

/-- How a call of sendMessage ends: the early return of line 135, a reply
rendered by addMessage, or handleError called with the caught value. -/
inductive SendOutcome where
  | ignored
  | replied (text : String)
  | failed (e : JsError)

/-- Lines 131-148 of sendMessage: the guard of line 135, then
showTypingIndicator, which raises isTyping.  The result is none when the guard
returns; otherwise it is the instance on which getAIResponse is called and the
trimmed message. -/
def EllenAI.sendMessageEnter (st : EllenAI) (inputValue : String) :
    Option (EllenAI × String) :=
  let msg := jsTrim inputValue
  if msg = "" ∨ st.isTyping = true then none
  else some ({ st with isTyping := true }, msg)

/-- Lines 151-156 of sendMessage, on the instance getAIResponse left and what
it returned or threw: hideTypingIndicator lowers isTyping on the success path
(line 151) and in the catch (line 155); then the reply is rendered or
handleError is called.  Rendering a reply that is not a string throws inside
the try block (formatMessage calls content.replace), which the catch hands to
handleError. -/
def sendMessageLeave (st : EllenAI) (result : Except JsError JsVal) :
    EllenAI × SendOutcome :=
  match result with
  | .ok (.str text) => ({ st with isTyping := false }, .replied text)
  | .ok _ => ({ st with isTyping := false }, .failed (.typeError "content.replace"))
  | .error e => ({ st with isTyping := false }, .failed e)

/-- The method sendMessage on the text of the input element: the guard and the
raising of the typing flag, the call of getAIResponse, and the lowering of the
flag with the rendering of the outcome. -/
def EllenAI.sendMessage (st : EllenAI) (inputValue : String) (net : Request → FetchOutcome) :
    EllenAI × SendOutcome :=
  match st.sendMessageEnter inputValue with
  | none => (st, .ignored)
  | some (st1, msg) =>
    sendMessageLeave (st1.getAIResponse msg net).1 (st1.getAIResponse msg net).2

/-- The method clearChat: the history becomes the empty array. -/
def EllenAI.clearChat (st : EllenAI) : EllenAI :=
  { st with conversationHistory := [] }

/-- The handlers that write the modelled fields.  A turn is a call of
sendMessage; configure stands for the five settings assignments made by
saveSettings, loadSettings and resetSettings, none of which touches the history. -/
inductive Event where
  | turn (inputValue : String) (net : Request → FetchOutcome)
  | clear
  | configure (apiKey apiProvider model : String) (maxTokens temperature : JsNum)

/-- One handler run to completion. -/
def EllenAI.step (st : EllenAI) : Event → EllenAI
  | .turn inputValue net => (st.sendMessage inputValue net).1
  | .clear => st.clearChat
  | .configure apiKey apiProvider model maxTokens temperature =>
    { st with apiKey := apiKey, apiProvider := apiProvider, model := model,
              maxTokens := maxTokens, temperature := temperature }

/-- A sequence of handlers run one after the other. -/
def EllenAI.run (st : EllenAI) (events : List Event) : EllenAI :=
  events.foldl EllenAI.step st

/-- A fetch that always answers 200 with a chat completion carrying the given text. -/
def replyWith (text : String) : Request → FetchOutcome :=
  fun _ => .fulfilled
    { ok := true, status := 200, statusText := "OK",
      json := .ok (.obj [("choices",
        .arr [.obj [("message", .obj [("role", .str "assistant"),
                                      ("content", .str text)])]])]) }

/-- The last k elements of a list, oldest first. -/
def lastElems (k : Nat) (l : List JsVal) : List JsVal :=
  l.drop (l.length - k)

/-- The request getAIResponse(msg) hands to fetch, or the error it throws before
calling fetch: lines 165-243 on the instance st. -/
def EllenAI.requestOf (st : EllenAI) (msg : String) : Except JsError Request :=
  buildRequest { st with conversationHistory := appendUserTurn st.conversationHistory msg } msg

/-- The chat-style body as the specification words it: model, the system
prompt followed by the history, max_tokens, temperature and stream false. -/
def specChatBody (model : String) (systemPrompt : JsVal) (history : List JsVal)
    (maxTokens temperature : JsNum) : JsVal :=
  .obj [("model", .str model),
        ("messages", .arr (systemPrompt :: history)),
        ("max_tokens", .num maxTokens),
        ("temperature", .num temperature),
        ("stream", .bool false)]

/-- The own field of an object body with the given name, if the value is an
object that has one. -/
def ownField (v : JsVal) (name : String) : Option JsVal :=
  match v with
  | .obj fields => fields.lookup name
  | _ => none

/-- The element that index 0 selects, if there is one: the first element of an
array, the first character of a string, the own field named 0 of an object. -/
def firstElement (v : JsVal) : Option JsVal :=
  match v with
  | .arr items => items.head?
  | .str s =>
    match s.data with
    | [] => none
    | c :: _ => some (.str (String.mk [c]))
  | .obj fields => fields.lookup "0"
  | _ => none

/-- The bodies the malformed-response rule speaks of: the body lacks a choices
field, or its choices has no first element, or its first choice has no message
field. -/
def lacksReply (data : JsVal) : Bool :=
  match ownField data "choices" with
  | none => true
  | some choices =>
    match firstElement choices with
    | none => true
    | some first => (ownField first "message").isNone

/-- The value at choices[0].message of a body, if the body has a choices field,
that value a first element, and that element a message field. -/
def replyMessageOf (data : JsVal) : Option JsVal :=
  match ownField data "choices" with
  | none => none
  | some choices =>
    match firstElement choices with
    | none => none
    | some first => ownField first "message"

/-- The value at error.message of the body of a failed response: the message
field of its error field, if both are there. -/
def errorMessageOf (errorData : JsVal) : Option JsVal :=
  match ownField errorData "error" with
  | none => none
  | some err => ownField err "message"

/-! ## Settings: saveSettings (lines 601-638) and loadSettings (lines 720-736) -/

/-- String.prototype.startsWith on lists of characters. -/
def startsWithChars : List Char → List Char → Bool
  | _, [] => true
  | [], _ :: _ => false
  | c :: cs, p :: ps => c == p && startsWithChars cs ps

/-- String.prototype.startsWith. -/
def jsStartsWith (s start : String) : Bool :=
  startsWithChars s.data start.data

/-- What saveSettings reads from the settings panel: the text of the key input,
the selected provider and model, the results of parseInt and parseFloat on the
two sliders, and the selected theme. -/
structure SettingsForm where
  apiKey : String
  apiProvider : String
  model : String
  maxTokens : JsNum
  temperature : JsNum
  theme : String

/-- The text localStorage holds under a key: text that JSON.parse turns into
the given value, or text that JSON.parse rejects. -/
inductive StoredText where
  | json (value : JsVal)
  | other (text : String)

/-- The entries of localStorage. -/
abbrev Storage := List (String × StoredText)

/-- The call localStorage.getItem(key). -/
def getItem (storage : Storage) (key : String) : Option StoredText :=
  storage.lookup key

/-- The call localStorage.setItem(key, text): the entry of the key is replaced. -/
def setItem (storage : Storage) (key : String) (text : StoredText) : Storage :=
  (key, text) :: storage.filter (fun e => e.1 != key)

/-- The key both saveSettings and loadSettings use. -/
def settingsKey : String := "ellen_settings"

/-- What JSON.stringify makes of a primitive property value, read back by
JSON.parse: a property holding undefined is dropped, NaN and the infinities
become null, every other primitive is kept. -/
def jsonOfPrimitive : JsVal → Option JsVal
  | .undefined => none
  | .num .nan => some .null
  | .num (.inf _) => some .null
  | v => some v

/-- The value JSON.parse returns for the text JSON.stringify produces, for an
object whose property values are primitives. -/
def jsonOfFlat : JsVal → JsVal
  | .obj fields =>
    .obj (fields.filterMap (fun e => (jsonOfPrimitive e.2).map (fun v => (e.1, v))))
  | v => v

/-- How a call of saveSettings ends: the early return after the notification of
line 614, the settings saved (with the theme handed to applyTheme), or a thrown
value. -/
inductive SaveOutcome where
  | rejected (notification : String)
  | saved (theme : String)
  | failed (e : JsError)

/-- The condition of line 613, apiKey and provider.keyFormat and not
apiKey.startsWith(provider.keyFormat), evaluated left to right: the
notification text when it holds, none when it does not, or the TypeError of
the read provider.keyFormat. -/
def keyFormatCheck (apiKey : String) (provider : ProviderEntry) :
    Except JsError (Option String) :=
  if apiKey = "" then .ok none
  else
    match provider with
    | .undefined => .error (.typeError "read keyFormat of undefined")
    | .inherited _ => .ok none
    | .descriptor d =>
      if d.keyFormat ≠ "" ∧ jsStartsWith apiKey d.keyFormat = false then
        .ok (some ("Invalid API key format. " ++ d.name ++ " keys start with \"" ++
          d.keyFormat ++ "\""))
      else .ok none

/-- The method saveSettings on the values of the settings panel.  The result
is the instance, the storage and the way the call ends. -/
def EllenAI.saveSettings (st : EllenAI) (form : SettingsForm) (storage : Storage) :
    EllenAI × Storage × SaveOutcome :=
  let apiKey := jsTrim form.apiKey
  let provider := lookupProvider form.apiProvider
  match keyFormatCheck apiKey provider with
  | .error e => (st, storage, .failed e)
  | .ok (some notification) => (st, storage, .rejected notification)
  | .ok none =>
    let settings : JsVal :=
      .obj [("apiKey", .str apiKey),
            ("model", .str form.model),
            ("maxTokens", .num form.maxTokens),
            ("temperature", .num form.temperature),
            ("theme", .str form.theme)]
    ({ st with apiKey := apiKey, apiProvider := form.apiProvider, model := form.model,
               maxTokens := form.maxTokens, temperature := form.temperature },
     setItem storage settingsKey (.json (jsonOfFlat settings)),
     .saved form.theme)

/-- The operator || on values: the left operand when it is truthy, else the
right one. -/
def orElse (v d : JsVal) : JsVal :=
  if truthy v then v else d

/-- How a call of loadSettings ends: nothing stored, the settings loaded (with
the theme handed to applyTheme), or the value caught by its try block. -/
inductive LoadOutcome where
  | nothingSaved
  | loaded (theme : JsVal)
  | failed (e : JsError)

/-- The read this.providers[apiProvider].models[0].id of line 727. -/
def defaultModel (apiProvider : String) : Except JsError String :=
  match lookupProvider apiProvider with
  | .descriptor d =>
    match d.models with
    | m :: _ => .ok m.id
    | [] => .error (.typeError "read id of undefined")
  | .inherited _ => .error (.typeError "read 0 of undefined")
  | .undefined => .error (.typeError "read models of undefined")

/-- Lines 728-730 of loadSettings on the parsed object settings, which is not
null (so none of its reads throws): maxTokens, temperature and the theme.  The
instance fields are typed as this program writes them; the result is none when
a stored value that would be assigned is of another type. -/
def loadNumbers (st : EllenAI) (settings : JsVal) : Option (EllenAI × LoadOutcome) :=
  match getProp settings "maxTokens", getProp settings "temperature",
      getProp settings "theme" with
  | .ok n, .ok t, .ok theme =>
    match orElse n (.num (.fin 1000)), orElse t (.num (.fin (7 / 10))) with
    | .num maxTokens, .num temperature =>
      some ({ st with maxTokens := maxTokens, temperature := temperature },
            .loaded (orElse theme (.str "dark")))
    | _, _ => none
  | .error e, _, _ => some (st, .failed e)
  | _, .error e, _ => some (st, .failed e)
  | _, _, .error e => some (st, .failed e)

/-- Line 727 of loadSettings, then the remaining lines. -/
def loadModel (st : EllenAI) (settings : JsVal) : Option (EllenAI × LoadOutcome) :=
  match getProp settings "model" with
  | .error e => some (st, .failed e)
  | .ok m =>
    if truthy m then
      match m with
      | .str model => loadNumbers { st with model := model } settings
      | _ => none
    else
      match defaultModel st.apiProvider with
      | .error e => some (st, .failed e)
      | .ok model => loadNumbers { st with model := model } settings

/-- The method loadSettings.  The assignments run in source order, so a value
thrown midway leaves the earlier assignments in place.  The result is none
when a stored value that would be assigned to a field is not of the type this
program writes there. -/
def EllenAI.loadSettings (st : EllenAI) (storage : Storage) :
    Option (EllenAI × LoadOutcome) :=
  match getItem storage settingsKey with
  | none => some (st, .nothingSaved)
  | some (.other text) =>
    if text = "" then some (st, .nothingSaved)
    else some (st, .failed (.host "JSON.parse"))
  | some (.json settings) =>
    match getProp settings "apiKey" with
    | .error e => some (st, .failed e)
    | .ok k =>
      match orElse k (.str "") with
      | .str apiKey =>
        match getProp settings "apiProvider" with
        | .error e => some ({ st with apiKey := apiKey }, .failed e)
        | .ok p =>
          match orElse p (.str "openai") with
          | .str apiProvider =>
            loadModel { st with apiKey := apiKey, apiProvider := apiProvider } settings
          | _ => none
      | _ => none

/-! ## handleError (lines 858-877) -/

/-- String.prototype.includes on lists of characters. -/
def includesChars : List Char → List Char → Bool
  | [], sub => sub.isEmpty
  | c :: cs, sub => startsWithChars (c :: cs) sub || includesChars cs sub

/-- String.prototype.includes. -/
def jsIncludes (s sub : String) : Bool :=
  includesChars s.data sub.data

/-- The method handleError on the text of error.message: the text it hands to
addMessage and showNotification. -/
def handleError (message : String) : String :=
  if jsIncludes message "API key" then
    "Please configure your OpenAI API key in settings."
  else if jsIncludes message "quota" then
    "API quota exceeded. Please check your OpenAI account."
  else if jsIncludes message "rate limit" then
    "Rate limit exceeded. Please wait a moment and try again."
  else if jsIncludes message "network" || jsIncludes message "fetch" then
    "Network error. Please check your internet connection."
  else if message ≠ "" then
    message
  else
    "An unexpected error occurred. Please try again."

/-- The text pat occurs in the text s. -/
def Contains (s pat : String) : Prop :=
  ∃ pre post, s.data = pre ++ pat.data ++ post

/-! ## formatMessage (lines 304-329) -/

/-- A global replace of a one-character pattern by a fixed text. -/
def replaceChar (c : Char) (r : List Char) : List Char → List Char
  | [] => []
  | x :: xs => (if x = c then r else [x]) ++ replaceChar c r xs

/-- Lines 306-308: the three escaping replaces, ampersand first. -/
def escapeHtml (cs : List Char) : List Char :=
  replaceChar '>' "&gt;".data (replaceChar '<' "&lt;".data (replaceChar '&' "&amp;".data cs))

/-- A global replace with a regular expression whose matches are not empty:
matchAt gives, for a match starting at the head of the text, the replacement
and the text after the match.  The scan goes left to right and resumes after
each match.  The first argument bounds the number of steps; the length of the
text is always enough. -/
def replaceMatches (matchAt : List Char → Option (List Char × List Char)) :
    Nat → List Char → List Char
  | 0, cs => cs
  | _ + 1, [] => []
  | fuel + 1, c :: cs =>
    match matchAt (c :: cs) with
    | some (replacement, rest) => replacement ++ replaceMatches matchAt fuel rest
    | none => c :: replaceMatches matchAt fuel cs

/-- The text after a literal start, if the text begins with it. -/
def stripStart (start cs : List Char) : Option (List Char) :=
  if startsWithChars cs start then some (cs.drop start.length) else none

/-- A lazy group followed by a literal delimiter: the shortest run of
characters, none of them excluded by stop, after which the delimiter stands;
the result is the run and the text after the delimiter. -/
def lazyUntil (stop : Char → Bool) (delim : List Char) :
    List Char → Option (List Char × List Char)
  | [] => none
  | c :: cs =>
    if startsWithChars (c :: cs) delim then some ([], (c :: cs).drop delim.length)
    else if stop c then none
    else (lazyUntil stop delim cs).map (fun p => (c :: p.1, p.2))

/-- The class of the escape backslash-w: ASCII letters, digits and underscore. -/
def isWordChar (c : Char) : Bool :=
  c.isAlphanum || c == '_'

/-- Line terminators, which the dot of a regular expression does not match. -/
def isLineTerminator (c : Char) : Bool :=
  c.toNat == 0x0A || c.toNat == 0x0D || c.toNat == 0x2028 || c.toNat == 0x2029

/-- Lines 311-314: a fenced code block at the head of the text.  After the
opening fence come the longest run of word characters (the language, text when
there is none), an optional newline, and the code up to the next fence; the
code is trimmed. -/
def matchCodeBlock (cs : List Char) : Option (List Char × List Char) :=
  match stripStart "```".data cs with
  | none => none
  | some rest =>
    let lang := rest.takeWhile isWordChar
    let afterLang := rest.dropWhile isWordChar
    let afterNewline := (stripStart "\n".data afterLang).getD afterLang
    match lazyUntil (fun _ => false) "```".data afterNewline with
    | none => none
    | some (code, after) =>
      some ("<pre><code class=\"language-".data ++
              (if lang.isEmpty then "text".data else lang) ++ "\">".data ++
              trimChars code ++ "</code></pre>".data,
            after)

/-- Line 317: inline code at the head of the text, a backtick, one or more
characters other than a backtick, and a backtick. -/
def matchInlineCode (cs : List Char) : Option (List Char × List Char) :=
  match stripStart "`".data cs with
  | none => none
  | some rest =>
    let body := rest.takeWhile (fun c => c != '`')
    match body, stripStart "`".data (rest.dropWhile (fun c => c != '`')) with
    | _ :: _, some after => some ("<code>".data ++ body ++ "</code>".data, after)
    | _, _ => none

/-- Line 320: bold text at the head of the text, between double asterisks. -/
def matchBold (cs : List Char) : Option (List Char × List Char) :=
  match stripStart "**".data cs with
  | none => none
  | some rest =>
    (lazyUntil isLineTerminator "**".data rest).map
      (fun p => ("<strong>".data ++ p.1 ++ "</strong>".data, p.2))

/-- Line 323: italic text at the head of the text, between asterisks. -/
def matchItalic (cs : List Char) : Option (List Char × List Char) :=
  match stripStart "*".data cs with
  | none => none
  | some rest =>
    (lazyUntil isLineTerminator "*".data rest).map
      (fun p => ("<em>".data ++ p.1 ++ "</em>".data, p.2))

/-- The body of formatMessage on the characters of a string content. -/
def formatChars (cs : List Char) : List Char :=
  let escaped := escapeHtml cs
  let blocks := replaceMatches matchCodeBlock escaped.length escaped
  let inline := replaceMatches matchInlineCode blocks.length blocks
  let bold := replaceMatches matchBold inline.length inline
  let italic := replaceMatches matchItalic bold.length bold
  replaceChar '\n' "<br>".data italic

/-- The method formatMessage on a string. -/
def formatMessage (content : String) : String :=
  String.mk (formatChars content.data)

/-- The text one character of the content becomes when the four replaces of
the escaping and of the line breaks are seen as a single pass. -/
def htmlPiece (c : Char) : List Char :=
  if c = '&' then "&amp;".data
  else if c = '<' then "&lt;".data
  else if c = '>' then "&gt;".data
  else if c = '\n' then "<br>".data
  else [c]

/-- The pieces of all characters, in order. -/
def htmlPieces : List Char → List Char
  | [] => []
  | c :: cs => htmlPiece c ++ htmlPieces cs

/-- The instance after ten answered turns on openai and the key then cleared
in the settings: twenty history entries and no key. -/
def fullHistoryNoKey : EllenAI :=
  EllenAI.constructed.run
    (.configure "sk-demo" "openai" "gpt-4" (.fin 1000) (.fin 1) ::
      (List.replicate 10 (.turn "hi" (replyWith "ok")) ++
        [.configure "" "openai" "gpt-4" (.fin 1000) (.fin 1)]))

/-! ## History: length and shape -/

theorem sendMessageEnter_guard (st : EllenAI) (input : String)
    (h : jsTrim input = "" ∨ st.isTyping = true) : st.sendMessageEnter input = none := by
  unfold EllenAI.sendMessageEnter
  simp only [h, if_true]

theorem sendMessageEnter_raises (st : EllenAI) (input : String)
    (hne : jsTrim input ≠ "") (ht : st.isTyping = false) :
    st.sendMessageEnter input = some ({ st with isTyping := true }, jsTrim input) := by
  unfold EllenAI.sendMessageEnter
  simp only [hne, ht, false_or, Bool.false_eq_true, if_false]

theorem sendMessageLeave_instance (st : EllenAI) (result : Except JsError JsVal) :
    (sendMessageLeave st result).1 = { st with isTyping := false } := by
  unfold sendMessageLeave
  split <;> rfl

theorem sendMessage_of_enter_none (st : EllenAI) (input : String)
    (net : Request → FetchOutcome) (h : st.sendMessageEnter input = none) :
    st.sendMessage input net = (st, .ignored) := by
  unfold EllenAI.sendMessage
  rw [h]

theorem sendMessage_of_enter_some (st st1 : EllenAI) (input msg : String)
    (net : Request → FetchOutcome) (h : st.sendMessageEnter input = some (st1, msg)) :
    st.sendMessage input net =
      sendMessageLeave (st1.getAIResponse msg net).1 (st1.getAIResponse msg net).2 := by
  unfold EllenAI.sendMessage
  rw [h]

theorem getAIResponse_steps (st : EllenAI) (msg : String) (net : Request → FetchOutcome) :
    st.getAIResponse msg net =
      match st.getAIResponseStart msg with
      | (st1, .error e) => (st1, .error e)
      | (st1, .ok req) => getAIResponseResume st1 (net req) := by
  unfold EllenAI.getAIResponse EllenAI.getAIResponseStart getAIResponseResume
  simp only
  split <;> rename_i heq <;> simp only [heq]

theorem appendUserTurn_length (h : List JsVal) (m : String) :
    (appendUserTurn h m).length = min 20 (h.length + 1) := by
  unfold appendUserTurn
  simp only [List.length_append, List.length_singleton]
  split
  · rw [List.length_drop, List.length_append, List.length_singleton]; omega
  · rw [List.length_append, List.length_singleton]; omega

theorem appendUserTurn_eq_drop (h : List JsVal) (m : String) :
    appendUserTurn h m =
      (h ++ [message "user" (.str m)]).drop (h.length + 1 - 20) := by
  unfold appendUserTurn
  simp only [List.length_append, List.length_singleton]
  split
  · rfl
  · rw [show h.length + 1 - 20 = 0 by omega, List.drop_zero]

theorem appendUserTurn_short (h : List JsVal) (m : String) (hlen : h.length < 20) :
    appendUserTurn h m = h ++ [message "user" (.str m)] := by
  rw [appendUserTurn_eq_drop, show h.length + 1 - 20 = 0 by omega, List.drop_zero]

theorem appendUserTurn_getLast (h : List JsVal) (m : String) :
    (appendUserTurn h m).getLast? = some (message "user" (.str m)) := by
  rw [appendUserTurn_eq_drop, List.getLast?_drop]
  simp only [List.length_append, List.length_singleton]
  rw [if_neg (by omega)]
  simp

theorem ingestResponse_cases (st : EllenAI) (r : Response) :
    (∃ e, ingestResponse st r = (st, .error e)) ∨
    (∃ v, ingestResponse st r =
      ({ st with conversationHistory :=
           st.conversationHistory ++ [message "assistant" v] }, .ok v)) := by
  unfold ingestResponse
  split
  · exact Or.inl ⟨_, rfl⟩
  · split
    · exact Or.inl ⟨_, rfl⟩
    · split
      · exact Or.inl ⟨_, rfl⟩
      · exact Or.inr ⟨_, rfl⟩

theorem getAIResponse_cases (st : EllenAI) (m : String) (net : Request → FetchOutcome) :
    (∃ e, st.getAIResponse m net =
      ({ st with conversationHistory := appendUserTurn st.conversationHistory m },
       .error e)) ∨
    (∃ v, st.getAIResponse m net =
      ({ st with conversationHistory :=
           appendUserTurn st.conversationHistory m ++ [message "assistant" v] },
       .ok v)) := by
  unfold EllenAI.getAIResponse
  simp only
  split
  · exact Or.inl ⟨_, rfl⟩
  · split
    · exact Or.inl ⟨_, rfl⟩
    · exact ingestResponse_cases _ _

theorem getAIResponse_length (st : EllenAI) (m : String) (net : Request → FetchOutcome) :
    (st.getAIResponse m net).1.conversationHistory.length ≤ 21 := by
  have hlen := appendUserTurn_length st.conversationHistory m
  rcases getAIResponse_cases st m net with ⟨e, h⟩ | ⟨v, h⟩
  · rw [h]; simp only; omega
  · rw [h]; simp only [List.length_append, List.length_singleton]; omega

theorem sendMessage_length (st : EllenAI) (input : String) (net : Request → FetchOutcome)
    (h : st.conversationHistory.length ≤ 21) :
    (st.sendMessage input net).1.conversationHistory.length ≤ 21 := by
  cases he : st.sendMessageEnter input with
  | none =>
    rw [sendMessage_of_enter_none st input net he]
    exact h
  | some p =>
    obtain ⟨st1, msg⟩ := p
    rw [sendMessage_of_enter_some st st1 input msg net he, sendMessageLeave_instance]
    exact getAIResponse_length st1 msg net

theorem step_length (st : EllenAI) (ev : Event) (h : st.conversationHistory.length ≤ 21) :
    (st.step ev).conversationHistory.length ≤ 21 := by
  cases ev with
  | turn input net => exact sendMessage_length st input net h
  | clear => simp [EllenAI.step, EllenAI.clearChat]
  | configure a b c d e => exact h

theorem run_length (events : List Event) (st : EllenAI)
    (h : st.conversationHistory.length ≤ 21) :
    (st.run events).conversationHistory.length ≤ 21 := by
  induction events generalizing st with
  | nil => exact h
  | cons ev rest ih => exact ih (st.step ev) (step_length st ev h)

/-! ## Requests and provider lookup -/

theorem getAIResponse_of_requestOf_error (st : EllenAI) (m : String)
    (net : Request → FetchOutcome) (e : JsError) (h : st.requestOf m = .error e) :
    st.getAIResponse m net =
      ({ st with conversationHistory := appendUserTurn st.conversationHistory m },
       .error e) := by
  unfold EllenAI.requestOf at h
  unfold EllenAI.getAIResponse
  simp only [h]

theorem lookup_unknown (id : String) (hid : id ∉ knownProviders) :
    providers.lookup id = none := by
  simp only [knownProviders, List.mem_cons, List.mem_singleton, List.not_mem_nil,
    or_false, not_or] at hid
  obtain ⟨h1, h2, h3, h4⟩ := hid
  have b1 : (id == "openai") = false := beq_eq_false_iff_ne.mpr h1
  have b2 : (id == "deepseek") = false := beq_eq_false_iff_ne.mpr h2
  have b3 : (id == "anthropic") = false := beq_eq_false_iff_ne.mpr h3
  have b4 : (id == "google") = false := beq_eq_false_iff_ne.mpr h4
  simp only [providers, List.lookup, b1, b2, b3, b4]

theorem lookupProvider_descriptor_iff (id : String) :
    (∃ d, lookupProvider id = .descriptor d) ↔ id ∈ knownProviders := by
  constructor
  · rintro ⟨d, h⟩
    by_contra hid
    unfold lookupProvider at h
    rw [lookup_unknown id hid] at h
    by_cases hk : id ∈ objectPrototypeKeys <;> simp [hk] at h
  · intro hid
    simp only [knownProviders, List.mem_cons, List.mem_singleton, List.not_mem_nil,
      or_false] at hid
    rcases hid with h | h | h | h <;> subst h <;> exact ⟨_, rfl⟩

theorem requestOf_openai (st : EllenAI) (m : String) (hkey : st.apiKey ≠ "")
    (hp : st.apiProvider = "openai") :
    st.requestOf m =
      .ok { url := .str "https://api.openai.com/v1/chat/completions"
            method := "POST"
            headers := [("Content-Type", "application/json"),
                        ("Authorization", "Bearer " ++ st.apiKey)]
            body := specChatBody st.model (message "system" (.str openaiSystemPrompt))
              (appendUserTurn st.conversationHistory m) st.maxTokens st.temperature } := by
  unfold EllenAI.requestOf buildRequest requestBodyAndHeaders
  simp only [if_neg hkey, hp]
  rfl

theorem requestOf_deepseek (st : EllenAI) (m : String) (hkey : st.apiKey ≠ "")
    (hp : st.apiProvider = "deepseek") :
    st.requestOf m =
      .ok { url := .str "https://api.deepseek.com/v1/chat/completions"
            method := "POST"
            headers := [("Content-Type", "application/json"),
                        ("Authorization", "Bearer " ++ st.apiKey)]
            body := .obj [("model", .str st.model),
                          ("messages", .arr (message "system" (.str deepseekSystemPrompt) ::
                             appendUserTurn st.conversationHistory m)),
                          ("max_tokens", .num st.maxTokens),
                          ("temperature", .num st.temperature)] } := by
  unfold EllenAI.requestOf buildRequest requestBodyAndHeaders
  simp only [if_neg hkey, hp]
  rfl

theorem cons_appendUserTurn_getLast (x : JsVal) (h : List JsVal) (m : String) :
    (x :: appendUserTurn h m).getLast? = some (message "user" (.str m)) := by
  have hlast := appendUserTurn_getLast h m
  cases hl : appendUserTurn h m with
  | nil => rw [hl] at hlast; cases hlast
  | cons y ys => rw [List.getLast?_cons_cons, ← hl]; exact hlast

/-! ## Response validation -/

theorem getProp_of_truthy (v : JsVal) (name : String) (h : truthy v = true) :
    getProp v name = .ok ((ownField v name).getD .undefined) := by
  cases v <;> first | rfl | (simp [truthy] at h)

theorem getIndex0_of_truthy (v : JsVal) (h : truthy v = true) :
    getIndex0 v = .ok ((firstElement v).getD .undefined) := by
  cases v with
  | undefined => simp [truthy] at h
  | null => simp [truthy] at h
  | str s =>
    unfold getIndex0 firstElement
    cases hs : s.data <;> simp [hs]
  | arr items => rfl
  | obj fields => rfl
  | bool b => rfl
  | num n => rfl

theorem getProp_of_ne (v : JsVal) (name : String) (h1 : v ≠ .null) (h2 : v ≠ .undefined) :
    getProp v name = .ok ((ownField v name).getD .undefined) := by
  cases v <;> first | rfl | exact absurd rfl h1 | exact absurd rfl h2

theorem extractReply_rejects (data : JsVal) (h1 : data ≠ .null) (h2 : data ≠ .undefined)
    (h : lacksReply data = true) :
    extractReply data = .error (.error (.str "Invalid response format from API")) := by
  unfold extractReply
  simp only [getProp_of_ne data "choices" h1 h2]
  unfold lacksReply at h
  cases hc : truthy ((ownField data "choices").getD .undefined) with
  | false => simp
  | true =>
    simp only [getIndex0_of_truthy _ hc]
    cases hf : truthy ((firstElement ((ownField data "choices").getD .undefined)).getD
        .undefined) with
    | false => simp
    | true =>
      simp only [getProp_of_truthy _ "message" hf]
      cases hch : ownField data "choices" with
      | none =>
        rw [hch] at hc
        simp [truthy] at hc
      | some c =>
        rw [hch] at h hf
        simp only [Option.getD_some] at hf ⊢
        cases hfe : firstElement c with
        | none =>
          rw [hfe] at hf
          simp [truthy] at hf
        | some f =>
          simp only [hfe, Option.isNone_iff_eq_none] at h
          simp only [Option.getD_some, h, Option.getD_none]
          simp [truthy]

theorem ingestResponse_rejects (st : EllenAI) (r : Response) (data : JsVal)
    (hok : r.ok = true) (hjson : r.json = .ok data)
    (h1 : data ≠ .null) (h2 : data ≠ .undefined) (h : lacksReply data = true) :
    ingestResponse st r =
      (st, .error (.error (.str "Invalid response format from API"))) := by
  unfold ingestResponse
  simp only [hok, hjson, extractReply_rejects data h1 h2 h]
  rfl

theorem ingestResponse_rejects_example :
    lacksReply (.obj [("choices", .arr [])]) = true ∧
    ingestResponse { EllenAI.constructed with apiKey := "sk-demo" }
        { ok := true, status := 200, statusText := "OK",
          json := .ok (.obj [("choices", .arr [])]) } =
      ({ EllenAI.constructed with apiKey := "sk-demo" },
       .error (.error (.str "Invalid response format from API"))) :=
  ⟨rfl,
   ingestResponse_rejects _ _ _ rfl rfl (by intro h; cases h) (by intro h; cases h) rfl⟩

theorem truthy_of_ownField (v : JsVal) (name : String) (w : JsVal)
    (h : ownField v name = some w) : truthy v = true := by
  cases v <;> first | rfl | (simp [ownField] at h)

theorem truthy_of_firstElement (v w : JsVal) (h : firstElement v = some w) :
    truthy v = true := by
  cases v with
  | str s =>
    unfold firstElement at h
    have hne : s ≠ "" := by
      intro hs
      rw [hs] at h
      simp at h
    simp [truthy, hne]
  | arr items => rfl
  | obj fields => rfl
  | undefined => simp [firstElement] at h
  | null => simp [firstElement] at h
  | bool b => simp [firstElement] at h
  | num n => simp [firstElement] at h

theorem ne_null_of_truthy (v : JsVal) (h : truthy v = true) :
    v ≠ .null ∧ v ≠ .undefined := by
  constructor <;> intro hv <;> rw [hv] at h <;> simp [truthy] at h

theorem some_of_truthy_getD (o : Option JsVal) (h : truthy (o.getD .undefined) = true) :
    o = some (o.getD .undefined) := by
  cases o with
  | none => simp [truthy] at h
  | some w => rfl

theorem extractReply_of_message (data msg : JsVal) (h : replyMessageOf data = some msg)
    (hm : truthy msg = true) :
    extractReply data = .ok ((ownField msg "content").getD .undefined) := by
  unfold replyMessageOf at h
  cases hc : ownField data "choices" with
  | none => simp [hc] at h
  | some c =>
    simp only [hc] at h
    cases hf : firstElement c with
    | none => simp [hf] at h
    | some f =>
      simp only [hf] at h
      have td := truthy_of_ownField _ _ _ hc
      have tc := truthy_of_firstElement _ _ hf
      have tf := truthy_of_ownField _ _ _ h
      unfold extractReply
      simp only [getProp_of_truthy data "choices" td, hc, Option.getD_some, tc,
        getIndex0_of_truthy c tc, hf, tf, getProp_of_truthy f "message" tf, h, hm,
        getProp_of_truthy msg "content" hm]
      rfl

theorem extractReply_ok_iff (data v : JsVal) :
    extractReply data = .ok v ↔
      ∃ msg, replyMessageOf data = some msg ∧ truthy msg = true ∧
        v = (ownField msg "content").getD .undefined := by
  constructor
  · intro h
    have hd : data ≠ .null ∧ data ≠ .undefined := by
      constructor <;> intro hv <;> rw [hv] at h <;> simp [extractReply, getProp] at h
    unfold extractReply at h
    simp only [getProp_of_ne data "choices" hd.1 hd.2] at h
    cases tc : truthy ((ownField data "choices").getD .undefined) with
    | false => simp [tc] at h
    | true =>
      simp only [tc, getIndex0_of_truthy _ tc] at h
      cases tf : truthy ((firstElement ((ownField data "choices").getD .undefined)).getD
          .undefined) with
      | false => simp [tf] at h
      | true =>
        simp only [tf, getProp_of_truthy _ "message" tf] at h
        cases tm : truthy ((ownField ((firstElement ((ownField data "choices").getD
            .undefined)).getD .undefined) "message").getD .undefined) with
        | false => simp [tm] at h
        | true =>
          simp only [tm, getProp_of_truthy _ "content" tm] at h
          have e1 := some_of_truthy_getD _ tc
          have e2 := some_of_truthy_getD _ tf
          have e3 := some_of_truthy_getD _ tm
          refine ⟨_, ?_, tm, ?_⟩
          · unfold replyMessageOf
            rw [e1]
            simp only
            rw [e2]
            simp only
            exact e3
          · simp at h
            exact h.symm
  · rintro ⟨msg, h, hm, rfl⟩
    exact extractReply_of_message data msg h hm

theorem ingestResponse_of_extract (st : EllenAI) (r : Response) (data v : JsVal)
    (hok : r.ok = true) (hjson : r.json = .ok data) (h : extractReply data = .ok v) :
    ingestResponse st r =
      ({ st with conversationHistory :=
           st.conversationHistory ++ [message "assistant" v] }, .ok v) := by
  unfold ingestResponse
  simp only [hok, hjson, h]
  rfl

/-! ## Settings -/

theorem startsWithChars_iff (l p : List Char) :
    startsWithChars l p = true ↔ ∃ rest, l = p ++ rest := by
  induction p generalizing l with
  | nil => simp [startsWithChars]
  | cons a ps ih =>
    cases l with
    | nil => simp [startsWithChars]
    | cons c cs =>
      simp only [startsWithChars, Bool.and_eq_true, beq_iff_eq, ih, List.cons_append,
        List.cons.injEq]
      constructor
      · rintro ⟨rfl, rest, rfl⟩
        exact ⟨rest, rfl, rfl⟩
      · rintro ⟨rest, rfl, rfl⟩
        exact ⟨rfl, rest, rfl⟩

theorem lookupProvider_of_lookup (p : String) (d : ProviderDescriptor)
    (hp : providers.lookup p = some d) : lookupProvider p = .descriptor d := by
  unfold lookupProvider
  rw [hp]

theorem keyFormat_ne_empty (p : String) (d : ProviderDescriptor)
    (hp : providers.lookup p = some d) : d.keyFormat ≠ "" := by
  have hk : p ∈ knownProviders := by
    by_contra hn
    rw [lookup_unknown p hn] at hp
    cases hp
  simp only [knownProviders, List.mem_cons, List.mem_singleton, List.not_mem_nil,
    or_false] at hk
  rcases hk with h | h | h | h <;> subst h <;> cases hp <;> decide

theorem getItem_setItem (storage : Storage) (key : String) (text : StoredText) :
    getItem (setItem storage key text) key = some text := by
  simp [getItem, setItem, List.lookup]

theorem saveSettings_accept (st : EllenAI) (form : SettingsForm) (storage : Storage)
    (h : keyFormatCheck (jsTrim form.apiKey) (lookupProvider form.apiProvider) = .ok none) :
    st.saveSettings form storage =
      ({ st with apiKey := jsTrim form.apiKey, apiProvider := form.apiProvider,
                 model := form.model, maxTokens := form.maxTokens,
                 temperature := form.temperature },
       setItem storage settingsKey (.json (jsonOfFlat (.obj
         [("apiKey", .str (jsTrim form.apiKey)),
          ("model", .str form.model),
          ("maxTokens", .num form.maxTokens),
          ("temperature", .num form.temperature),
          ("theme", .str form.theme)]))),
       .saved form.theme) := by
  unfold EllenAI.saveSettings
  simp only [h]

theorem jsonOfFlat_settings (k m theme : String) (n t : ℚ) :
    jsonOfFlat (.obj
      [("apiKey", .str k), ("model", .str m), ("maxTokens", .num (.fin n)),
       ("temperature", .num (.fin t)), ("theme", .str theme)]) =
    .obj [("apiKey", .str k), ("model", .str m), ("maxTokens", .num (.fin n)),
          ("temperature", .num (.fin t)), ("theme", .str theme)] := rfl

theorem saveSettings_saved_iff (st : EllenAI) (form : SettingsForm) (storage : Storage) :
    (∃ theme, (st.saveSettings form storage).2.2 = .saved theme) ↔
      keyFormatCheck (jsTrim form.apiKey) (lookupProvider form.apiProvider) = .ok none := by
  constructor
  · rintro ⟨theme, h⟩
    unfold EllenAI.saveSettings at h
    simp only at h
    split at h
    · cases h
    · cases h
    · assumption
  · intro h
    rw [saveSettings_accept st form storage h]
    exact ⟨_, rfl⟩

theorem keyFormatCheck_accepts (k : String) (d : ProviderDescriptor)
    (h : k = "" ∨ ∃ rest, k.data = d.keyFormat.data ++ rest) :
    keyFormatCheck k (.descriptor d) = .ok none := by
  unfold keyFormatCheck
  by_cases hk : k = ""
  · simp [hk]
  · have hs : startsWithChars k.data d.keyFormat.data = true :=
      (startsWithChars_iff _ _).mpr (h.resolve_left hk)
    simp [hk, jsStartsWith, hs]

theorem keyFormatCheck_rejects (k : String) (d : ProviderDescriptor) (hd : d.keyFormat ≠ "")
    (h : ¬ (k = "" ∨ ∃ rest, k.data = d.keyFormat.data ++ rest)) :
    keyFormatCheck k (.descriptor d) =
      .ok (some ("Invalid API key format. " ++ d.name ++ " keys start with \"" ++
          d.keyFormat ++ "\"")) := by
  unfold keyFormatCheck
  have hk : k ≠ "" := fun hk => h (Or.inl hk)
  have hs : startsWithChars k.data d.keyFormat.data = false := by
    cases hb : startsWithChars k.data d.keyFormat.data with
    | false => rfl
    | true => exact absurd (Or.inr ((startsWithChars_iff _ _).mp hb)) h
  simp [hk, jsStartsWith, hs, hd]

theorem loadSettings_saved_blob (st : EllenAI) (storage : Storage) (k m theme : String)
    (n t : ℚ)
    (hget : getItem storage settingsKey = some (.json (.obj
      [("apiKey", .str k), ("model", .str m), ("maxTokens", .num (.fin n)),
       ("temperature", .num (.fin t)), ("theme", .str theme)])))
    (hm : m ≠ "") (hn : n ≠ 0) :
    st.loadSettings storage =
      some ({ st with apiKey := k, apiProvider := "openai", model := m,
                      maxTokens := .fin n,
                      temperature := .fin (if t = 0 then 7 / 10 else t) },
            .loaded (.str (if theme = "" then "dark" else theme))) := by
  unfold EllenAI.loadSettings
  rw [hget]
  by_cases hk : k = "" <;> by_cases ht : t = 0 <;> by_cases hth : theme = "" <;>
    simp [getProp, List.lookup, orElse, truthy, loadModel, loadNumbers, hm, hn, hk, ht, hth]

/-! ## Status failures -/

theorem optChain_message (e : JsVal) :
    optChain e "message" = .ok ((ownField e "message").getD .undefined) := by
  cases e <;> rfl

theorem statusError_unparsable (r : Response) (e : JsError) (hjson : r.json = .error e) :
    statusError r =
      .error (.str ("API Error: " ++ toString r.status ++ " " ++ r.statusText)) := by
  unfold statusError
  simp [hjson, getProp, List.lookup, optChain, truthy]

theorem statusError_parsed (r : Response) (body : JsVal) (hjson : r.json = .ok body)
    (h1 : body ≠ .null) (h2 : body ≠ .undefined) :
    statusError r =
      .error (orElse ((errorMessageOf body).getD .undefined)
        (.str ("API Error: " ++ toString r.status ++ " " ++ r.statusText))) := by
  unfold statusError
  simp only [hjson, getProp_of_ne body "error" h1 h2, optChain_message]
  unfold errorMessageOf orElse
  cases ownField body "error" with
  | none => simp [ownField, truthy]
  | some err =>
    simp only [Option.getD_some]
    split <;> rfl

theorem ingestResponse_not_ok (st : EllenAI) (r : Response) (hok : r.ok = false) :
    ingestResponse st r = (st, .error (statusError r)) := by
  unfold ingestResponse
  simp [hok]

theorem status_failure_example :
    ingestResponse { EllenAI.constructed with apiKey := "sk-demo" }
        { ok := false, status := 429, statusText := "Too Many Requests",
          json := .ok (.obj [("error", .obj [("message", .str "Rate limit reached")])]) } =
      ({ EllenAI.constructed with apiKey := "sk-demo" },
       .error (.error (.str "Rate limit reached"))) ∧
    ingestResponse { EllenAI.constructed with apiKey := "sk-demo" }
        { ok := false, status := 502, statusText := "Bad Gateway",
          json := .error (.host "Unexpected token") } =
      ({ EllenAI.constructed with apiKey := "sk-demo" },
       .error (.error (.str "API Error: 502 Bad Gateway"))) :=
  ⟨rfl, rfl⟩

/-! ## Error messages -/

theorem includesChars_iff (l sub : List Char) :
    includesChars l sub = true ↔ ∃ pre post, l = pre ++ sub ++ post := by
  induction l with
  | nil =>
    simp only [includesChars, List.isEmpty_iff]
    constructor
    · rintro rfl
      exact ⟨[], [], rfl⟩
    · rintro ⟨pre, post, h⟩
      have h2 := congrArg List.length h
      simp only [List.length_nil, List.length_append] at h2
      exact List.length_eq_zero.mp (by omega)
  | cons c cs ih =>
    simp only [includesChars, Bool.or_eq_true, startsWithChars_iff, ih]
    constructor
    · rintro (⟨rest, h⟩ | ⟨pre, post, h⟩)
      · exact ⟨[], rest, by simpa using h⟩
      · exact ⟨c :: pre, post, by simp [h]⟩
    · rintro ⟨pre, post, h⟩
      cases pre with
      | nil => exact Or.inl ⟨post, by simpa using h⟩
      | cons p pre2 =>
        simp only [List.cons_append, List.cons.injEq] at h
        exact Or.inr ⟨pre2, post, h.2⟩

theorem jsIncludes_iff (s pat : String) : jsIncludes s pat = true ↔ Contains s pat :=
  includesChars_iff _ _

theorem jsIncludes_false_iff (s pat : String) : jsIncludes s pat = false ↔ ¬ Contains s pat := by
  rw [← jsIncludes_iff]
  simp

theorem requestOf_missing_key (st : EllenAI) (m : String)
    (hp : st.apiProvider ∈ knownProviders) (hkey : st.apiKey = "") :
    ∃ d, providers.lookup st.apiProvider = some d ∧
      st.requestOf m = .error (.error (.str
        ("API key not configured. Please set your " ++ d.name ++
          " API key in settings."))) := by
  simp only [knownProviders, List.mem_cons, List.mem_singleton, List.not_mem_nil,
    or_false] at hp
  unfold EllenAI.requestOf buildRequest lookupProvider
  rcases hp with h | h | h | h <;> simp only [hkey, h, if_true] <;> exact ⟨_, rfl, rfl⟩

theorem handleError_missing_key (name : String) :
    handleError ("API key not configured. Please set your " ++ name ++
      " API key in settings.") = "Please configure your OpenAI API key in settings." := by
  have hc : Contains ("API key not configured. Please set your " ++ name ++
      " API key in settings.") "API key" := by
    refine ⟨[], " not configured. Please set your ".data ++ name.data ++
      " API key in settings.".data, ?_⟩
    simp only [String.data_append, List.nil_append, List.append_assoc]
    rfl
  unfold handleError
  rw [if_pos ((jsIncludes_iff _ _).mpr hc)]

/-! ## formatMessage -/

theorem replaceMatches_id (matchAt : List Char → Option (List Char × List Char))
    (cs : List Char) (h : ∀ c ∈ cs, ∀ rest, matchAt (c :: rest) = none) (fuel : Nat) :
    replaceMatches matchAt fuel cs = cs := by
  induction cs generalizing fuel with
  | nil => cases fuel <;> rfl
  | cons c cs ih =>
    cases fuel with
    | zero => rfl
    | succ n =>
      simp only [replaceMatches, h c (List.mem_cons_self c cs) cs]
      rw [ih (fun x hx rest => h x (List.mem_cons_of_mem c hx) rest)]

theorem stripStart_none (s c : Char) (ss rest : List Char) (h : c ≠ s) :
    stripStart (s :: ss) (c :: rest) = none := by
  simp [stripStart, startsWithChars, h]

theorem matchCodeBlock_none (c : Char) (rest : List Char) (h : c ≠ '`') :
    matchCodeBlock (c :: rest) = none := by
  unfold matchCodeBlock
  rw [show "```".data = '`' :: ['`', '`'] from rfl, stripStart_none _ _ _ _ h]

theorem matchInlineCode_none (c : Char) (rest : List Char) (h : c ≠ '`') :
    matchInlineCode (c :: rest) = none := by
  unfold matchInlineCode
  rw [show "`".data = '`' :: [] from rfl, stripStart_none _ _ _ _ h]

theorem matchBold_none (c : Char) (rest : List Char) (h : c ≠ '*') :
    matchBold (c :: rest) = none := by
  unfold matchBold
  rw [show "**".data = '*' :: ['*'] from rfl, stripStart_none _ _ _ _ h]

theorem matchItalic_none (c : Char) (rest : List Char) (h : c ≠ '*') :
    matchItalic (c :: rest) = none := by
  unfold matchItalic
  rw [show "*".data = '*' :: [] from rfl, stripStart_none _ _ _ _ h]

theorem mem_replaceChar (x c : Char) (r cs : List Char) (h : x ∈ replaceChar c r cs) :
    x ∈ cs ∨ x ∈ r := by
  induction cs with
  | nil => simp [replaceChar] at h
  | cons y ys ih =>
    simp only [replaceChar, List.mem_append] at h
    rcases h with h | h
    · by_cases hy : y = c
      · rw [if_pos hy] at h
        exact Or.inr h
      · rw [if_neg hy] at h
        rw [List.mem_singleton] at h
        exact Or.inl (h ▸ List.mem_cons_self y ys)
    · rcases ih h with h2 | h2
      · exact Or.inl (List.mem_cons_of_mem y h2)
      · exact Or.inr h2

theorem not_mem_escapeHtml (x : Char) (cs : List Char) (hx : x ∉ cs)
    (h1 : x ∉ "&amp;".data) (h2 : x ∉ "&lt;".data) (h3 : x ∉ "&gt;".data) :
    x ∉ escapeHtml cs := by
  intro h
  unfold escapeHtml at h
  rcases mem_replaceChar _ _ _ _ h with h | h
  · rcases mem_replaceChar _ _ _ _ h with h | h
    · rcases mem_replaceChar _ _ _ _ h with h | h
      · exact hx h
      · exact h1 h
    · exact h2 h
  · exact h3 h

theorem replaceChar_append (c : Char) (r a b : List Char) :
    replaceChar c r (a ++ b) = replaceChar c r a ++ replaceChar c r b := by
  induction a with
  | nil => rfl
  | cons x xs ih => simp [replaceChar, ih]

theorem replaceChar_singleton_ne (c x : Char) (r : List Char) (h : x ≠ c) :
    replaceChar c r [x] = [x] := by
  simp [replaceChar, h]

theorem escape_chain_piece (c : Char) :
    replaceChar '\n' "<br>".data (replaceChar '>' "&gt;".data
      (replaceChar '<' "&lt;".data (if c = '&' then "&amp;".data else [c]))) =
    htmlPiece c := by
  unfold htmlPiece
  by_cases h1 : c = '&'
  · rw [if_pos h1, if_pos h1]
    decide
  · rw [if_neg h1, if_neg h1]
    by_cases h2 : c = '<'
    · rw [if_pos h2, h2]
      decide
    · rw [if_neg h2, replaceChar_singleton_ne _ _ _ h2]
      by_cases h3 : c = '>'
      · rw [if_pos h3, h3]
        decide
      · rw [if_neg h3, replaceChar_singleton_ne _ _ _ h3]
        by_cases h4 : c = '\n'
        · rw [if_pos h4, h4]
          decide
        · rw [if_neg h4, replaceChar_singleton_ne _ _ _ h4]

theorem escape_chain_eq_pieces (cs : List Char) :
    replaceChar '\n' "<br>".data (escapeHtml cs) = htmlPieces cs := by
  unfold escapeHtml
  induction cs with
  | nil => rfl
  | cons c cs ih =>
    simp only [replaceChar, replaceChar_append, htmlPieces]
    rw [ih]
    congr 1
    have := escape_chain_piece c
    simp only [replaceChar, replaceChar_append] at this
    exact this

theorem formatChars_plain (cs : List Char) (hb : '`' ∉ cs) (ha : '*' ∉ cs) :
    formatChars cs = replaceChar '\n' "<br>".data (escapeHtml cs) := by
  have hb2 : '`' ∉ escapeHtml cs :=
    not_mem_escapeHtml _ cs hb (by decide) (by decide) (by decide)
  have ha2 : '*' ∉ escapeHtml cs :=
    not_mem_escapeHtml _ cs ha (by decide) (by decide) (by decide)
  have nb : ∀ c ∈ escapeHtml cs, c ≠ '`' := fun c hc h => hb2 (h ▸ hc)
  have na : ∀ c ∈ escapeHtml cs, c ≠ '*' := fun c hc h => ha2 (h ▸ hc)
  unfold formatChars
  simp only
  rw [replaceMatches_id matchCodeBlock _ (fun c hc rest => matchCodeBlock_none c rest (nb c hc)),
    replaceMatches_id matchInlineCode _
      (fun c hc rest => matchInlineCode_none c rest (nb c hc)),
    replaceMatches_id matchBold _ (fun c hc rest => matchBold_none c rest (na c hc)),
    replaceMatches_id matchItalic _ (fun c hc rest => matchItalic_none c rest (na c hc))]

theorem count_lt_htmlPiece (c : Char) :
    (htmlPiece c).count '<' = if c = '\n' then 1 else 0 := by
  unfold htmlPiece
  by_cases h1 : c = '&'
  · subst h1; decide
  · by_cases h2 : c = '<'
    · subst h2; decide
    · by_cases h3 : c = '>'
      · subst h3; decide
      · by_cases h4 : c = '\n'
        · subst h4; decide
        · simp [h1, h2, h3, h4, List.count_cons]

theorem count_gt_htmlPiece (c : Char) :
    (htmlPiece c).count '>' = if c = '\n' then 1 else 0 := by
  unfold htmlPiece
  by_cases h1 : c = '&'
  · subst h1; decide
  · by_cases h2 : c = '<'
    · subst h2; decide
    · by_cases h3 : c = '>'
      · subst h3; decide
      · by_cases h4 : c = '\n'
        · subst h4; decide
        · simp [h1, h2, h3, h4, List.count_cons]

theorem count_lt_htmlPieces (cs : List Char) :
    (htmlPieces cs).count '<' = cs.count '\n' := by
  induction cs with
  | nil => rfl
  | cons c cs ih =>
    simp only [htmlPieces, List.count_append, ih, count_lt_htmlPiece, List.count_cons,
      beq_iff_eq]
    omega

theorem count_gt_htmlPieces (cs : List Char) :
    (htmlPieces cs).count '>' = cs.count '\n' := by
  induction cs with
  | nil => rfl
  | cons c cs ih =>
    simp only [htmlPieces, List.count_append, ih, count_gt_htmlPiece, List.count_cons,
      beq_iff_eq]
    omega

theorem stripStart_length (start cs rest : List Char) (h : stripStart start cs = some rest) :
    rest.length + start.length = cs.length := by
  unfold stripStart at h
  split at h
  · rename_i hs
    obtain ⟨tail, ht⟩ := (startsWithChars_iff _ _).mp hs
    cases h
    rw [ht]
    simp [Nat.add_comm]
  · cases h

theorem getD_stripStart_length (start l : List Char) :
    ((stripStart start l).getD l).length ≤ l.length := by
  cases hn : stripStart start l with
  | none => simp
  | some x =>
    have := stripStart_length _ _ _ hn
    simp only [Option.getD_some]
    omega

theorem lazyUntil_length (stop : Char → Bool) (delim cs run after : List Char)
    (h : lazyUntil stop delim cs = some (run, after)) : after.length ≤ cs.length := by
  induction cs generalizing run with
  | nil => simp [lazyUntil] at h
  | cons c cs ih =>
    unfold lazyUntil at h
    split at h
    · cases h
      simp
    · split at h
      · cases h
      · cases hl : lazyUntil stop delim cs with
        | none => simp [hl] at h
        | some p =>
          obtain ⟨r2, a2⟩ := p
          simp only [hl, Option.map_some', Option.some.injEq, Prod.mk.injEq] at h
          obtain ⟨-, h2⟩ := h
          subst h2
          have := ih r2 hl
          rw [List.length_cons]
          omega

theorem matchCodeBlock_shorter (cs r rest : List Char)
    (h : matchCodeBlock cs = some (r, rest)) : rest.length < cs.length := by
  unfold matchCodeBlock at h
  split at h
  · cases h
  · rename_i body hs
    have h1 := stripStart_length _ _ _ hs
    have h1b : "```".data.length = 3 := rfl
    have h2 : (body.dropWhile isWordChar).length ≤ body.length :=
      (List.dropWhile_sublist _).length_le
    simp only at h
    split at h
    · cases h
    · rename_i code after hl
      have h4 := le_trans (lazyUntil_length _ _ _ _ _ hl) (getD_stripStart_length _ _)
      simp only [Option.some.injEq, Prod.mk.injEq] at h
      rw [← h.2]
      omega

theorem matchInlineCode_shorter (cs r rest : List Char)
    (h : matchInlineCode cs = some (r, rest)) : rest.length < cs.length := by
  unfold matchInlineCode at h
  split at h
  · cases h
  · rename_i body hs
    have h1 := stripStart_length _ _ _ hs
    have h1b : "`".data.length = 1 := rfl
    have h2 : (body.dropWhile (fun c => c != '`')).length ≤ body.length :=
      (List.dropWhile_sublist _).length_le
    simp only at h
    split at h
    · rename_i x xs after hb ha
      have h3 := stripStart_length _ _ _ ha
      simp only [Option.some.injEq, Prod.mk.injEq] at h
      rw [← h.2]
      omega
    · cases h

theorem matchBold_shorter (cs r rest : List Char)
    (h : matchBold cs = some (r, rest)) : rest.length < cs.length := by
  unfold matchBold at h
  split at h
  · cases h
  · rename_i body hs
    have h1 := stripStart_length _ _ _ hs
    have h1b : "**".data.length = 2 := rfl
    cases hl : lazyUntil isLineTerminator "**".data body with
    | none => simp [hl] at h
    | some p =>
      obtain ⟨run, after⟩ := p
      have h2 := lazyUntil_length _ _ _ _ _ hl
      simp only [hl, Option.map_some', Option.some.injEq, Prod.mk.injEq] at h
      rw [← h.2]
      omega

theorem matchItalic_shorter (cs r rest : List Char)
    (h : matchItalic cs = some (r, rest)) : rest.length < cs.length := by
  unfold matchItalic at h
  split at h
  · cases h
  · rename_i body hs
    have h1 := stripStart_length _ _ _ hs
    have h1b : "*".data.length = 1 := rfl
    cases hl : lazyUntil isLineTerminator "*".data body with
    | none => simp [hl] at h
    | some p =>
      obtain ⟨run, after⟩ := p
      have h2 := lazyUntil_length _ _ _ _ _ hl
      simp only [hl, Option.map_some', Option.some.injEq, Prod.mk.injEq] at h
      rw [← h.2]
      omega

theorem replaceMatches_enough_fuel (matchAt : List Char → Option (List Char × List Char))
    (hshort : ∀ cs r rest, matchAt cs = some (r, rest) → rest.length < cs.length)
    (n : Nat) :
    ∀ (cs : List Char) (fuel1 fuel2 : Nat), cs.length ≤ n → cs.length ≤ fuel1 →
      cs.length ≤ fuel2 →
      replaceMatches matchAt fuel1 cs = replaceMatches matchAt fuel2 cs := by
  induction n with
  | zero =>
    intro cs fuel1 fuel2 hn _ _
    have hc : cs = [] := List.length_eq_zero.mp (by omega)
    subst hc
    cases fuel1 <;> cases fuel2 <;> rfl
  | succ n ih =>
    intro cs fuel1 fuel2 hn h1 h2
    cases cs with
    | nil => cases fuel1 <;> cases fuel2 <;> rfl
    | cons c t =>
      simp only [List.length_cons] at hn h1 h2
      obtain ⟨a, rfl⟩ : ∃ a, fuel1 = a + 1 := ⟨fuel1 - 1, by omega⟩
      obtain ⟨b, rfl⟩ : ∃ b, fuel2 = b + 1 := ⟨fuel2 - 1, by omega⟩
      simp only [replaceMatches]
      cases hm : matchAt (c :: t) with
      | none =>
        simp only
        rw [ih t a b (by omega) (by omega) (by omega)]
      | some p =>
        obtain ⟨r, rest⟩ := p
        have hs := hshort _ _ _ hm
        simp only [List.length_cons] at hs
        simp only
        rw [ih rest a b (by omega) (by omega) (by omega)]

/-! ## Response handling and the provider -/

theorem requestOf_known_ok (st : EllenAI) (m : String) (hkey : st.apiKey ≠ "")
    (hp : st.apiProvider ∈ knownProviders) : ∃ req, st.requestOf m = .ok req := by
  simp only [knownProviders, List.mem_cons, List.mem_singleton, List.not_mem_nil,
    or_false] at hp
  unfold EllenAI.requestOf buildRequest lookupProvider
  rcases hp with h | h | h | h <;> simp only [if_neg hkey, h] <;> exact ⟨_, rfl⟩

theorem getAIResponse_of_fulfilled (st : EllenAI) (m : String)
    (net : Request → FetchOutcome) (r : Response)
    (hreq : ∃ req, st.requestOf m = .ok req) (hnet : ∀ req, net req = .fulfilled r) :
    st.getAIResponse m net =
      ingestResponse
        { st with conversationHistory := appendUserTurn st.conversationHistory m } r := by
  obtain ⟨req, hreq⟩ := hreq
  unfold EllenAI.requestOf at hreq
  unfold EllenAI.getAIResponse
  simp only [hreq, hnet]

theorem ingestResponse_result (st : EllenAI) (r : Response) :
    (ingestResponse st r).2 =
      (if r.ok = true then
        match r.json with
        | .error e => .error e
        | .ok data => extractReply data
      else .error (statusError r)) ∧
    (ingestResponse st r).1.conversationHistory =
      st.conversationHistory ++
        (match (ingestResponse st r).2 with
         | .ok v => [message "assistant" v]
         | .error _ => []) := by
  unfold ingestResponse
  cases hok : r.ok with
  | false => simp
  | true =>
    cases hj : r.json with
    | error e => simp
    | ok data =>
      cases he : extractReply data with
      | error e => simp [he]
      | ok v => simp [he]

theorem extractReply_without_choices (data : JsVal) (h : ownField data "choices" = none) :
    ∃ e, extractReply data = .error e := by
  by_cases h1 : data = .null
  · subst h1
    exact ⟨_, rfl⟩
  · by_cases h2 : data = .undefined
    · subst h2
      exact ⟨_, rfl⟩
    · refine ⟨_, extractReply_rejects data h1 h2 ?_⟩
      unfold lacksReply
      rw [h]

/-! ## Claims -/

/-- C1, counterexample.  From the constructed instance with a key configured,
eleven answered turns leave 21 entries in conversationHistory: the eleventh user
append cuts the history to 20 and the assistant push of line 259 adds one more
without truncating, so the bound of 20 fails after that mutation. -/
theorem history_exceeds_twenty :
    ¬ (EllenAI.constructed.run
        (.configure "sk-demo" "openai" "gpt-4" (.fin 1000) (.fin 1) ::
          List.replicate 11 (.turn "hi" (replyWith "ok")))).conversationHistory.length
        ≤ 20 := by
  decide

/-- C1, amended.  Starting from an empty history, after any sequence of turns,
clearChat calls and settings changes the history holds at most 21 entries; the
user-turn append of the next turn always leaves at most 20 entries; and an
answered turn leaves the user-appended history followed by the assistant
message, untruncated. -/
theorem history_bound (st : EllenAI) (events : List Event)
    (h0 : st.conversationHistory = []) :
    (st.run events).conversationHistory.length ≤ 21 ∧
    (∀ m, (appendUserTurn (st.run events).conversationHistory m).length ≤ 20) ∧
    (∀ m net v, ((st.run events).getAIResponse m net).2 = .ok v →
      ((st.run events).getAIResponse m net).1.conversationHistory =
        appendUserTurn (st.run events).conversationHistory m ++
          [message "assistant" v]) := by
  refine ⟨run_length events st (by rw [h0]; simp), ?_, ?_⟩
  · intro m
    rw [appendUserTurn_length]
    omega
  · intro m net v hv
    rcases getAIResponse_cases (st.run events) m net with ⟨e, h⟩ | ⟨w, h⟩
    · rw [h] at hv
      cases hv
    · rw [h] at hv ⊢
      cases hv
      rfl

/-- C1, witness: the bound of 21 at the run of the counterexample. -/
theorem history_bound_witness :
    EllenAI.constructed.conversationHistory = [] ∧
    (EllenAI.constructed.run
        (.configure "sk-demo" "openai" "gpt-4" (.fin 1000) (.fin 1) ::
          List.replicate 11 (.turn "hi" (replyWith "ok")))).conversationHistory.length
        ≤ 21 :=
  ⟨rfl, (history_bound EllenAI.constructed _ rfl).1⟩

/-- C2.  The user-turn append of getAIResponse is a sliding window: the new
history is the last min(20, |h|+1) elements of h followed by the user message;
the user message is its last element; its length is min(20, |h|+1); and h
followed by the user message is the dropped oldest entries, |h|+1-20 of them,
followed by the new history. -/
theorem appendUserTurn_sliding_window (h : List JsVal) (m : String) :
    appendUserTurn h m =
      lastElems (min 20 (h.length + 1)) (h ++ [message "user" (.str m)]) ∧
    (appendUserTurn h m).getLast? = some (message "user" (.str m)) ∧
    (appendUserTurn h m).length = min 20 (h.length + 1) ∧
    h ++ [message "user" (.str m)] =
      (h ++ [message "user" (.str m)]).take (h.length + 1 - 20) ++ appendUserTurn h m := by
  refine ⟨?_, appendUserTurn_getLast h m, appendUserTurn_length h m, ?_⟩
  · rw [appendUserTurn_eq_drop]
    unfold lastElems
    rw [List.length_append, List.length_singleton]
    congr 1
    omega
  · rw [appendUserTurn_eq_drop, List.take_append_drop]

/-- C3, counterexample.  On the input of three blanks sendMessage returns at
line 135: the call ends as ignored, handleError is not reached, so no error is
raised or shown. -/
theorem blank_message_raises_no_error :
    (EllenAI.constructed.sendMessage "   " (replyWith "ok")).2 = .ignored ∧
    ¬ ∃ e, (EllenAI.constructed.sendMessage "   " (replyWith "ok")).2 = .failed e := by
  have h : (EllenAI.constructed.sendMessage "   " (replyWith "ok")).2 = .ignored := by
    rfl
  refine ⟨h, ?_⟩
  rintro ⟨e, he⟩
  rw [h] at he
  cases he

/-- C3, amended.  For every input that is empty after trimming, sendMessage
returns early without calling getAIResponse: the call ends as ignored and the
instance, conversationHistory included, is unchanged. -/
theorem sendMessage_blank_ignored (st : EllenAI) (input : String)
    (net : Request → FetchOutcome) (hblank : jsTrim input = "") :
    st.sendMessage input net = (st, .ignored) :=
  sendMessage_of_enter_none st input net (sendMessageEnter_guard st input (Or.inl hblank))

/-- C3, witness: the empty input and the input of three blanks. -/
theorem sendMessage_blank_ignored_witness :
    jsTrim "   " = "" ∧
    EllenAI.constructed.sendMessage "   " (replyWith "ok") =
      (EllenAI.constructed, .ignored) :=
  ⟨by decide, sendMessage_blank_ignored EllenAI.constructed "   " (replyWith "ok") (by decide)⟩

/-- C4, counterexample.  After ten answered turns the history holds twenty
entries; with the key then cleared, getAIResponse throws the missing-credential
error, but the slice of line 169 has already run: the history still holds
twenty entries, the oldest one is gone, so it is not the old history followed
by the user turn. -/
theorem full_history_loses_oldest_entry :
    fullHistoryNoKey.apiKey = "" ∧
    fullHistoryNoKey.apiProvider ∈ knownProviders ∧
    fullHistoryNoKey.conversationHistory.length = 20 ∧
    (fullHistoryNoKey.getAIResponse "again" (replyWith "ok")).1.conversationHistory.length
      = 20 ∧
    (fullHistoryNoKey.getAIResponse "again" (replyWith "ok")).1.conversationHistory =
      fullHistoryNoKey.conversationHistory.drop 1 ++ [message "user" (.str "again")] ∧
    ¬ ((fullHistoryNoKey.getAIResponse "again" (replyWith "ok")).1.conversationHistory =
        fullHistoryNoKey.conversationHistory ++ [message "user" (.str "again")]) := by
  have h1 : fullHistoryNoKey.conversationHistory.length = 20 := by decide
  have h2 : (fullHistoryNoKey.getAIResponse "again"
      (replyWith "ok")).1.conversationHistory.length = 20 := by decide
  refine ⟨by decide, by decide, h1, h2, rfl, ?_⟩
  intro h
  have h3 := congrArg List.length h
  rw [h2, List.length_append, h1] at h3
  simp at h3

/-- C4, amended.  With one of the four known providers selected and an empty
apiKey, getAIResponse throws the error of line 173 naming the provider; fetch
is not consulted and no request is built; the instance is unchanged except that
the history has received the user-turn append: it is the old history followed
by the user message with all but the last 20 entries dropped, which for an old
history shorter than 20 is the old history followed by the user message. -/
theorem missing_credential (st : EllenAI) (m : String) (net : Request → FetchOutcome)
    (hp : st.apiProvider ∈ knownProviders) (hkey : st.apiKey = "") :
    ∃ d, providers.lookup st.apiProvider = some d ∧
      st.requestOf m = .error (.error (.str
        ("API key not configured. Please set your " ++ d.name ++ " API key in settings."))) ∧
      st.getAIResponse m net =
        ({ st with conversationHistory := appendUserTurn st.conversationHistory m },
         .error (.error (.str
          ("API key not configured. Please set your " ++ d.name ++
            " API key in settings.")))) ∧
      (st.getAIResponse m net).1.conversationHistory =
        (st.conversationHistory ++ [message "user" (.str m)]).drop
          (st.conversationHistory.length + 1 - 20) ∧
      (st.conversationHistory.length < 20 →
        (st.getAIResponse m net).1.conversationHistory =
          st.conversationHistory ++ [message "user" (.str m)]) := by
  obtain ⟨d, hd, hr⟩ := requestOf_missing_key st m hp hkey
  have hres := getAIResponse_of_requestOf_error st m net _ hr
  refine ⟨d, hd, hr, hres, ?_, ?_⟩
  · rw [hres]
    exact appendUserTurn_eq_drop _ m
  · intro hlen
    rw [hres]
    exact appendUserTurn_short _ m hlen

/-- C4, witness: the constructed instance (provider openai, no key) and the
message hello. -/
theorem missing_credential_witness :
    EllenAI.constructed.getAIResponse "hello" (replyWith "ok") =
      ({ EllenAI.constructed with
           conversationHistory := [message "user" (.str "hello")] },
       .error (.error (.str
        "API key not configured. Please set your OpenAI API key in settings."))) := by
  obtain ⟨d, hd, -, hres, -, -⟩ :=
    missing_credential EllenAI.constructed "hello" (replyWith "ok") (by decide) rfl
  have hd2 : d = ⟨"OpenAI", "https://api.openai.com/v1/chat/completions",
      [⟨"gpt-3.5-turbo", "GPT-3.5 Turbo (Faster, Cheaper)"⟩,
       ⟨"gpt-4", "GPT-4 (More Capable)"⟩, ⟨"gpt-4-turbo-preview", "GPT-4 Turbo"⟩],
      "sk-"⟩ := (Option.some.inj hd).symm
  rw [hres, hd2]
  rfl

/-- C5, counterexample.  The identifier constructor is none of the four known
ones, yet with a key set the read this.providers[id] finds the built-in
inherited from Object.prototype, provider.baseUrl is undefined, nothing is
thrown and fetch receives a request with undefined URL and body. -/
theorem inherited_identifier_builds_request :
    "constructor" ∉ knownProviders ∧
    ({ EllenAI.constructed with apiKey := "sk-demo", apiProvider := "constructor" } :
        EllenAI).requestOf "hi" =
      .ok { url := .undefined, method := "POST",
            headers := [("Content-Type", "application/json")], body := .undefined } :=
  ⟨by decide, rfl⟩

/-- C5, amended.  The read this.providers[id] yields a provider descriptor
exactly for the four known identifiers, whose endpoint URLs, model lists and key
prefixes are pairwise different.  With a key set and an identifier that is
neither known nor a property name inherited from Object.prototype,
getAIResponse throws the TypeError of the read provider.baseUrl before fetch is
called, so no request is produced; the user turn stays appended. -/
theorem provider_lookup (st : EllenAI) (m : String) (net : Request → FetchOutcome)
    (hkey : st.apiKey ≠ "") :
    (∀ id, (∃ d, lookupProvider id = .descriptor d) ↔ id ∈ knownProviders) ∧
    providers.map (fun p => p.1) = knownProviders ∧
    (providers.map (fun p => p.2.baseUrl)).Nodup ∧
    (providers.map (fun p => p.2.models)).Nodup ∧
    (providers.map (fun p => p.2.keyFormat)).Nodup ∧
    (st.apiProvider ∉ knownProviders → st.apiProvider ∉ objectPrototypeKeys →
      st.requestOf m = .error (.typeError "read baseUrl of undefined") ∧
      st.getAIResponse m net =
        ({ st with conversationHistory := appendUserTurn st.conversationHistory m },
         .error (.typeError "read baseUrl of undefined"))) := by
  refine ⟨lookupProvider_descriptor_iff, rfl, by decide, by decide, by decide, ?_⟩
  intro hid hproto
  have hr : st.requestOf m = .error (.typeError "read baseUrl of undefined") := by
    unfold EllenAI.requestOf buildRequest lookupProvider
    simp only [if_neg hkey, lookup_unknown _ hid, if_neg hproto]
    rfl
  exact ⟨hr, getAIResponse_of_requestOf_error st m net _ hr⟩

/-- C5, witness: the identifier mistral with a key set. -/
theorem provider_lookup_witness :
    "sk-demo" ≠ "" ∧ "mistral" ∉ knownProviders ∧ "mistral" ∉ objectPrototypeKeys ∧
    ({ EllenAI.constructed with apiKey := "sk-demo", apiProvider := "mistral" } :
        EllenAI).getAIResponse "hi" (replyWith "ok") =
      ({ EllenAI.constructed with
           apiKey := "sk-demo", apiProvider := "mistral",
           conversationHistory := [message "user" (.str "hi")] },
       .error (.typeError "read baseUrl of undefined")) :=
  ⟨by decide, by decide, by decide,
   ((provider_lookup
      { EllenAI.constructed with apiKey := "sk-demo", apiProvider := "mistral" }
      "hi" (replyWith "ok") (by decide)).2.2.2.2.2 (by decide) (by decide)).2⟩

/-- C6, counterexample.  For the provider deepseek the body handed to fetch has
the four fields model, messages, max_tokens and temperature and no stream
field, while the body the claim describes carries stream false. -/
theorem deepseek_body_has_no_stream :
    ({ EllenAI.constructed with
         apiKey := "dp-demo", apiProvider := "deepseek", model := "deepseek-chat" } :
        EllenAI).requestOf "hi" =
      .ok { url := .str "https://api.deepseek.com/v1/chat/completions"
            method := "POST"
            headers := [("Content-Type", "application/json"),
                        ("Authorization", "Bearer dp-demo")]
            body := .obj [("model", .str "deepseek-chat"),
                          ("messages", .arr [message "system" (.str deepseekSystemPrompt),
                                             message "user" (.str "hi")]),
                          ("max_tokens", .num (.fin 1000)),
                          ("temperature", .num (.fin (7 / 10)))] } ∧
    getProp (.obj [("model", .str "deepseek-chat"),
                   ("messages", .arr [message "system" (.str deepseekSystemPrompt),
                                      message "user" (.str "hi")]),
                   ("max_tokens", .num (.fin 1000)),
                   ("temperature", .num (.fin (7 / 10)))]) "stream" = .ok .undefined ∧
    getProp (specChatBody "deepseek-chat" (message "system" (.str deepseekSystemPrompt))
      [message "user" (.str "hi")] (.fin 1000) (.fin (7 / 10))) "stream" =
        .ok (.bool false) :=
  ⟨rfl, rfl, rfl⟩

/-- C6, amended.  With a key k set, for openai the request body is exactly
model, messages (the openai system prompt followed by the user-appended
history), max_tokens, temperature and stream false; for deepseek it is exactly
model, messages (the deepseek system prompt followed by the user-appended
history), max_tokens and temperature, with no stream field; in both cases the
headers are Content-Type and Authorization with the value Bearer k. -/
theorem chat_request_shape (st : EllenAI) (m : String) (hkey : st.apiKey ≠ "") :
    (st.apiProvider = "openai" →
      st.requestOf m =
        .ok { url := .str "https://api.openai.com/v1/chat/completions"
              method := "POST"
              headers := [("Content-Type", "application/json"),
                          ("Authorization", "Bearer " ++ st.apiKey)]
              body := specChatBody st.model (message "system" (.str openaiSystemPrompt))
                (appendUserTurn st.conversationHistory m) st.maxTokens st.temperature }) ∧
    (st.apiProvider = "deepseek" →
      st.requestOf m =
        .ok { url := .str "https://api.deepseek.com/v1/chat/completions"
              method := "POST"
              headers := [("Content-Type", "application/json"),
                          ("Authorization", "Bearer " ++ st.apiKey)]
              body := .obj [("model", .str st.model),
                            ("messages", .arr (message "system" (.str deepseekSystemPrompt) ::
                               appendUserTurn st.conversationHistory m)),
                            ("max_tokens", .num st.maxTokens),
                            ("temperature", .num st.temperature)] }) := by
  exact ⟨requestOf_openai st m hkey, requestOf_deepseek st m hkey⟩

/-- C6, witness: an openai instance and a deepseek instance, each with a key. -/
theorem chat_request_shape_witness :
    ({ EllenAI.constructed with apiKey := "sk-demo" } : EllenAI).requestOf "hi" =
      .ok { url := .str "https://api.openai.com/v1/chat/completions"
            method := "POST"
            headers := [("Content-Type", "application/json"),
                        ("Authorization", "Bearer sk-demo")]
            body := specChatBody "gpt-3.5-turbo" (message "system" (.str openaiSystemPrompt))
              [message "user" (.str "hi")] (.fin 1000) (.fin (7 / 10)) } ∧
    ({ EllenAI.constructed with
         apiKey := "dp-demo", apiProvider := "deepseek", model := "deepseek-chat" } :
        EllenAI).requestOf "hi" =
      .ok { url := .str "https://api.deepseek.com/v1/chat/completions"
            method := "POST"
            headers := [("Content-Type", "application/json"),
                        ("Authorization", "Bearer dp-demo")]
            body := .obj [("model", .str "deepseek-chat"),
                          ("messages", .arr [message "system" (.str deepseekSystemPrompt),
                                             message "user" (.str "hi")]),
                          ("max_tokens", .num (.fin 1000)),
                          ("temperature", .num (.fin (7 / 10)))] } :=
  ⟨(chat_request_shape { EllenAI.constructed with apiKey := "sk-demo" } "hi"
      (by decide)).1 rfl,
   (chat_request_shape
      { EllenAI.constructed with
          apiKey := "dp-demo", apiProvider := "deepseek", model := "deepseek-chat" } "hi"
      (by decide)).2 rfl⟩

/-- C7.  With a key set and a chat-style provider selected, the messages array
of the body handed to fetch starts with a system-role message, has length
1 + min(20, |h|+1), and ends with the user message just sent. -/
theorem chat_request_latest_turn_last (st : EllenAI) (m : String) (hkey : st.apiKey ≠ "")
    (hp : st.apiProvider = "openai" ∨ st.apiProvider = "deepseek") :
    ∃ req fields msgs sys,
      st.requestOf m = .ok req ∧ req.body = .obj fields ∧
      fields.lookup "messages" = some (.arr msgs) ∧
      msgs.head? = some (message "system" (.str sys)) ∧
      msgs.length = 1 + min 20 (st.conversationHistory.length + 1) ∧
      msgs.getLast? = some (message "user" (.str m)) := by
  have hlen := appendUserTurn_length st.conversationHistory m
  rcases hp with hp | hp
  · refine ⟨_, _, message "system" (.str openaiSystemPrompt) ::
        appendUserTurn st.conversationHistory m, openaiSystemPrompt,
      requestOf_openai st m hkey hp, rfl, rfl, rfl, ?_, cons_appendUserTurn_getLast _ _ _⟩
    rw [List.length_cons, hlen]; omega
  · refine ⟨_, _, message "system" (.str deepseekSystemPrompt) ::
        appendUserTurn st.conversationHistory m, deepseekSystemPrompt,
      requestOf_deepseek st m hkey hp, rfl, rfl, rfl, ?_, cons_appendUserTurn_getLast _ _ _⟩
    rw [List.length_cons, hlen]; omega

/-- C7, witness: an empty prior history and the message hello on openai. -/
theorem chat_request_latest_turn_last_witness :
    ∃ req fields msgs sys,
      ({ EllenAI.constructed with apiKey := "sk-demo" } : EllenAI).requestOf "hello" =
        .ok req ∧ req.body = .obj fields ∧
      fields.lookup "messages" = some (.arr msgs) ∧
      msgs.head? = some (message "system" (.str sys)) ∧
      msgs.length = 1 + min 20 (0 + 1) ∧
      msgs.getLast? = some (.obj [("role", .str "user"), ("content", .str "hello")]) :=
  chat_request_latest_turn_last { EllenAI.constructed with apiKey := "sk-demo" } "hello"
    (by decide) (Or.inl rfl)

/-- C8.  With a key k set and the provider anthropic selected, the request body
is exactly model, prompt (the single-turn text around the message),
max_tokens_to_sample and temperature; the request is the same whatever the
prior history; the headers are Content-Type and X-API-Key with the value k, and
there is no Authorization header. -/
theorem completion_request_shape (st : EllenAI) (m : String) (hkey : st.apiKey ≠ "")
    (hp : st.apiProvider = "anthropic") :
    st.requestOf m =
      .ok { url := .str "https://api.anthropic.com/v1/complete"
            method := "POST"
            headers := [("Content-Type", "application/json"), ("X-API-Key", st.apiKey)]
            body := .obj [("model", .str st.model),
                          ("prompt", .str ("\n\nHuman: " ++ m ++ "\n\nAssistant: ")),
                          ("max_tokens_to_sample", .num st.maxTokens),
                          ("temperature", .num st.temperature)] } ∧
    (∀ h2 : List JsVal,
      ({ st with conversationHistory := h2 } : EllenAI).requestOf m = st.requestOf m) ∧
    (∀ req, st.requestOf m = .ok req →
      req.headers.lookup "X-API-Key" = some st.apiKey ∧
      req.headers.lookup "Authorization" = none) := by
  have key : ∀ h2 : List JsVal,
      ({ st with conversationHistory := h2 } : EllenAI).requestOf m =
      .ok { url := .str "https://api.anthropic.com/v1/complete"
            method := "POST"
            headers := [("Content-Type", "application/json"), ("X-API-Key", st.apiKey)]
            body := .obj [("model", .str st.model),
                          ("prompt", .str ("\n\nHuman: " ++ m ++ "\n\nAssistant: ")),
                          ("max_tokens_to_sample", .num st.maxTokens),
                          ("temperature", .num st.temperature)] } := by
    intro h2
    unfold EllenAI.requestOf buildRequest requestBodyAndHeaders
    simp only [if_neg hkey, hp]
    rfl
  have h0 := key st.conversationHistory
  refine ⟨h0, fun h2 => (key h2).trans h0.symm, ?_⟩
  intro req hreq
  rw [h0] at hreq
  cases hreq
  exact ⟨rfl, rfl⟩

/-- C8, witness: an anthropic instance with a key and the message hello. -/
theorem completion_request_shape_witness :
    ({ EllenAI.constructed with
         apiKey := "sk-ant-demo", apiProvider := "anthropic", model := "claude-2" } :
        EllenAI).requestOf "hello" =
      .ok { url := .str "https://api.anthropic.com/v1/complete"
            method := "POST"
            headers := [("Content-Type", "application/json"), ("X-API-Key", "sk-ant-demo")]
            body := .obj [("model", .str "claude-2"),
                          ("prompt", .str "\n\nHuman: hello\n\nAssistant: "),
                          ("max_tokens_to_sample", .num (.fin 1000)),
                          ("temperature", .num (.fin (7 / 10)))] } :=
  (completion_request_shape
    { EllenAI.constructed with
        apiKey := "sk-ant-demo", apiProvider := "anthropic", model := "claude-2" }
    "hello" (by decide) rfl).1

/-- C9.  With a key k set and the provider google selected, the request body is
exactly model, prompt (an object with the single field text holding the
message), temperature and candidateCount 1, so it has no max_tokens or
max_tokens_to_sample field; the request is the same whatever the prior
history; the headers are Content-Type and Authorization with the value
Bearer k. -/
theorem single_shot_request_shape (st : EllenAI) (m : String) (hkey : st.apiKey ≠ "")
    (hp : st.apiProvider = "google") :
    st.requestOf m =
      .ok { url := .str "https://generativelanguage.googleapis.com/v1/models"
            method := "POST"
            headers := [("Content-Type", "application/json"),
                        ("Authorization", "Bearer " ++ st.apiKey)]
            body := .obj [("model", .str st.model),
                          ("prompt", .obj [("text", .str m)]),
                          ("temperature", .num st.temperature),
                          ("candidateCount", .num (.fin 1))] } ∧
    (∀ h2 : List JsVal,
      ({ st with conversationHistory := h2 } : EllenAI).requestOf m = st.requestOf m) ∧
    (∀ req, st.requestOf m = .ok req →
      getProp req.body "max_tokens" = .ok .undefined ∧
      getProp req.body "max_tokens_to_sample" = .ok .undefined ∧
      req.headers.lookup "Authorization" = some ("Bearer " ++ st.apiKey)) := by
  have key : ∀ h2 : List JsVal,
      ({ st with conversationHistory := h2 } : EllenAI).requestOf m =
      .ok { url := .str "https://generativelanguage.googleapis.com/v1/models"
            method := "POST"
            headers := [("Content-Type", "application/json"),
                        ("Authorization", "Bearer " ++ st.apiKey)]
            body := .obj [("model", .str st.model),
                          ("prompt", .obj [("text", .str m)]),
                          ("temperature", .num st.temperature),
                          ("candidateCount", .num (.fin 1))] } := by
    intro h2
    unfold EllenAI.requestOf buildRequest requestBodyAndHeaders
    simp only [if_neg hkey, hp]
    rfl
  have h0 := key st.conversationHistory
  refine ⟨h0, fun h2 => (key h2).trans h0.symm, ?_⟩
  intro req hreq
  rw [h0] at hreq
  cases hreq
  exact ⟨rfl, rfl, rfl⟩

/-- C9, witness: a google instance with a key and the message hello. -/
theorem single_shot_request_shape_witness :
    ({ EllenAI.constructed with
         apiKey := "AIza-demo", apiProvider := "google", model := "gemini-pro" } :
        EllenAI).requestOf "hello" =
      .ok { url := .str "https://generativelanguage.googleapis.com/v1/models"
            method := "POST"
            headers := [("Content-Type", "application/json"),
                        ("Authorization", "Bearer AIza-demo")]
            body := .obj [("model", .str "gemini-pro"),
                          ("prompt", .obj [("text", .str "hello")]),
                          ("temperature", .num (.fin (7 / 10))),
                          ("candidateCount", .num (.fin 1))] } :=
  (single_shot_request_shape
    { EllenAI.constructed with
        apiKey := "AIza-demo", apiProvider := "google", model := "gemini-pro" }
    "hello" (by decide) rfl).1

/-- C10.  A response with status ok whose JSON body is null lacks a choices
field, yet the shape check of line 252 does not reach its own error: the read
data.choices throws a TypeError, which is what getAIResponse throws instead of
the error Invalid response format from API.  The history is not written. -/
theorem null_body_throws_type_error :
    lacksReply .null = true ∧
    ingestResponse
        { EllenAI.constructed with
            apiKey := "sk-demo", conversationHistory := [message "user" (.str "hi")] }
        { ok := true, status := 200, statusText := "OK", json := .ok .null } =
      ({ EllenAI.constructed with
           apiKey := "sk-demo", conversationHistory := [message "user" (.str "hi")] },
       .error (.typeError "read choices of null")) ∧
    ({ EllenAI.constructed with apiKey := "sk-demo" } : EllenAI).getAIResponse "hi"
        (fun _ => .fulfilled
          { ok := true, status := 200, statusText := "OK", json := .ok .null }) =
      ({ EllenAI.constructed with
           apiKey := "sk-demo", conversationHistory := [message "user" (.str "hi")] },
       .error (.typeError "read choices of null")) :=
  ⟨rfl, rfl, rfl⟩

/-- C11.  For a response with status ok whose body has the string t at
choices[0].message.content, response ingestion returns t and leaves the old
history followed by the single new message with role assistant and content t:
that message is the last element, the length grows by one, and the earlier
entries are the old history in the same order. -/
theorem successful_ingestion (st : EllenAI) (r : Response) (data msg : JsVal) (t : String)
    (hok : r.ok = true) (hjson : r.json = .ok data)
    (hmsg : replyMessageOf data = some msg)
    (hcontent : ownField msg "content" = some (.str t)) :
    ingestResponse st r =
      ({ st with conversationHistory :=
           st.conversationHistory ++ [message "assistant" (.str t)] }, .ok (.str t)) ∧
    (ingestResponse st r).1.conversationHistory.getLast? =
      some (message "assistant" (.str t)) ∧
    (ingestResponse st r).1.conversationHistory.length =
      st.conversationHistory.length + 1 ∧
    (ingestResponse st r).1.conversationHistory.take st.conversationHistory.length =
      st.conversationHistory := by
  have hm := truthy_of_ownField _ _ _ hcontent
  have hex := extractReply_of_message data msg hmsg hm
  rw [hcontent, Option.getD_some] at hex
  have hres := ingestResponse_of_extract st r data _ hok hjson hex
  refine ⟨hres, ?_, ?_, ?_⟩
  · rw [hres]; simp
  · rw [hres]; simp
  · rw [hres]; simp

/-- C11, witness: a chat completion carrying the text ok, ingested on a history
of one user turn. -/
theorem successful_ingestion_witness :
    ingestResponse
        { EllenAI.constructed with
            apiKey := "sk-demo", conversationHistory := [message "user" (.str "hi")] }
        { ok := true, status := 200, statusText := "OK",
          json := .ok (.obj [("choices",
            .arr [.obj [("message", .obj [("role", .str "assistant"),
                                          ("content", .str "ok")])]])]) } =
      ({ EllenAI.constructed with
           apiKey := "sk-demo",
           conversationHistory :=
             [message "user" (.str "hi"), message "assistant" (.str "ok")] },
       .ok (.str "ok")) :=
  (successful_ingestion _ _
    (.obj [("choices",
      .arr [.obj [("message", .obj [("role", .str "assistant"), ("content", .str "ok")])]])])
    (.obj [("role", .str "assistant"), ("content", .str "ok")])
    "ok" rfl rfl rfl rfl).1

/-- C12.  After clearChat the history is empty, whatever sequence of handlers
ran before; clearChat applied twice gives the same instance as applied once;
and clearChat leaves apiKey, apiProvider, model, maxTokens and temperature as
they were. -/
theorem clearChat_resets (st : EllenAI) (events : List Event) :
    ((st.run events).clearChat).conversationHistory.length = 0 ∧
    ((st.run events).clearChat).clearChat = (st.run events).clearChat ∧
    ((st.run events).clearChat).apiKey = (st.run events).apiKey ∧
    ((st.run events).clearChat).apiProvider = (st.run events).apiProvider ∧
    ((st.run events).clearChat).model = (st.run events).model ∧
    ((st.run events).clearChat).maxTokens = (st.run events).maxTokens ∧
    ((st.run events).clearChat).temperature = (st.run events).temperature :=
  ⟨rfl, rfl, rfl, rfl, rfl, rfl, rfl⟩

/-- C18.  While isTyping is true the guard of sendMessage returns for every
input: getAIResponse is not entered, the instance is unchanged (no history
entry, no setting changed) and the collaborator is not consulted.  Otherwise,
for an input that is not blank, sendMessage raises isTyping and calls
getAIResponse on the instance with the flag raised; the flag is raised on the
instance that waits for fetch, so a second sendMessage made meanwhile is
ignored; the flag stays raised until getAIResponse has returned or thrown; and
the last step lowers it, on the success path and on the failure path. -/
theorem no_second_turn (st : EllenAI) (input : String) (net : Request → FetchOutcome) :
    (st.isTyping = true →
      st.sendMessageEnter input = none ∧ st.sendMessage input net = (st, .ignored)) ∧
    (st.isTyping = false → jsTrim input ≠ "" →
      st.sendMessageEnter input = some ({ st with isTyping := true }, jsTrim input) ∧
      (({ st with isTyping := true } : EllenAI).getAIResponseStart
        (jsTrim input)).1.isTyping = true ∧
      (∀ (input2 : String) (net2 : Request → FetchOutcome),
        (({ st with isTyping := true } : EllenAI).getAIResponseStart
          (jsTrim input)).1.sendMessage input2 net2 =
        ((({ st with isTyping := true } : EllenAI).getAIResponseStart (jsTrim input)).1,
         .ignored)) ∧
      ({ st with isTyping := true } : EllenAI).getAIResponse (jsTrim input) net =
        (match ({ st with isTyping := true } : EllenAI).getAIResponseStart (jsTrim input) with
         | (st1, .error e) => (st1, .error e)
         | (st1, .ok req) => getAIResponseResume st1 (net req)) ∧
      (({ st with isTyping := true } : EllenAI).getAIResponse (jsTrim input) net).1.isTyping
        = true ∧
      st.sendMessage input net =
        sendMessageLeave
          (({ st with isTyping := true } : EllenAI).getAIResponse (jsTrim input) net).1
          (({ st with isTyping := true } : EllenAI).getAIResponse (jsTrim input) net).2 ∧
      (st.sendMessage input net).1 =
        { (({ st with isTyping := true } : EllenAI).getAIResponse (jsTrim input) net).1 with
            isTyping := false } ∧
      (st.sendMessage input net).1.isTyping = false) ∧
    (∀ (st2 : EllenAI) (v : JsVal),
      (sendMessageLeave st2 (.ok v)).1 = { st2 with isTyping := false }) ∧
    (∀ (st2 : EllenAI) (e : JsError),
      sendMessageLeave st2 (.error e) = ({ st2 with isTyping := false }, .failed e)) := by
  refine ⟨?_, ?_, fun st2 v => sendMessageLeave_instance st2 _, fun st2 e => rfl⟩
  · intro ht
    have he := sendMessageEnter_guard st input (Or.inr ht)
    exact ⟨he, sendMessage_of_enter_none st input net he⟩
  · intro ht hne
    have he := sendMessageEnter_raises st input hne ht
    have hflag : (({ st with isTyping := true } : EllenAI).getAIResponse
        (jsTrim input) net).1.isTyping = true := by
      rcases getAIResponse_cases { st with isTyping := true } (jsTrim input) net with
        ⟨e, h⟩ | ⟨v, h⟩ <;> rw [h]
    have hsend := sendMessage_of_enter_some st _ input _ net he
    have hinst : (st.sendMessage input net).1 =
        { (({ st with isTyping := true } : EllenAI).getAIResponse (jsTrim input) net).1 with
            isTyping := false } := by
      rw [hsend, sendMessageLeave_instance]
    refine ⟨he, rfl, ?_, getAIResponse_steps _ _ _, hflag, hsend, hinst, ?_⟩
    · intro input2 net2
      exact sendMessage_of_enter_none _ input2 net2
        (sendMessageEnter_guard _ input2 (Or.inr rfl))
    · rw [hinst]

/-- C18, witness: a send attempted while a request is outstanding, and a turn
started from the idle instance, which raises the flag before getAIResponse is
called and has it lowered at the end. -/
theorem no_second_turn_witness :
    ({ EllenAI.constructed with apiKey := "sk-demo", isTyping := true } :
        EllenAI).sendMessage "hello" (replyWith "ok") =
      ({ EllenAI.constructed with apiKey := "sk-demo", isTyping := true }, .ignored) ∧
    ({ EllenAI.constructed with apiKey := "sk-demo" } : EllenAI).sendMessageEnter "hello" =
      some ({ EllenAI.constructed with apiKey := "sk-demo", isTyping := true },
            jsTrim "hello") ∧
    (({ EllenAI.constructed with apiKey := "sk-demo" } : EllenAI).sendMessage "hello"
        (replyWith "ok")).1.isTyping = false :=
  ⟨((no_second_turn { EllenAI.constructed with apiKey := "sk-demo", isTyping := true }
      "hello" (replyWith "ok")).1 rfl).2,
   ((no_second_turn { EllenAI.constructed with apiKey := "sk-demo" } "hello"
      (replyWith "ok")).2.1 rfl (by decide)).1,
   ((no_second_turn { EllenAI.constructed with apiKey := "sk-demo" } "hello"
      (replyWith "ok")).2.1 rfl (by decide)).2.2.2.2.2.2.2⟩

/-- C20.  For a response with status ok whose body has a truthy value at
choices[0].message that has no content field, the shape check passes,
getAIResponse returns undefined, and the message with role assistant and
content undefined is appended.  A body is accepted exactly when
choices[0].message is present and truthy: the content is not looked at. -/
theorem reply_text_unchecked (st : EllenAI) (r : Response) (data msg : JsVal)
    (hok : r.ok = true) (hjson : r.json = .ok data)
    (hmsg : replyMessageOf data = some msg) (htruthy : truthy msg = true)
    (hno : ownField msg "content" = none) :
    ingestResponse st r =
      ({ st with conversationHistory :=
           st.conversationHistory ++ [message "assistant" .undefined] }, .ok .undefined) ∧
    (∀ body, (∃ v, extractReply body = .ok v) ↔
      ∃ m, replyMessageOf body = some m ∧ truthy m = true) := by
  constructor
  · have hex := extractReply_of_message data msg hmsg htruthy
    rw [hno, Option.getD_none] at hex
    exact ingestResponse_of_extract st r data _ hok hjson hex
  · intro body
    constructor
    · rintro ⟨v, hv⟩
      obtain ⟨m, h1, h2, -⟩ := (extractReply_ok_iff body v).mp hv
      exact ⟨m, h1, h2⟩
    · rintro ⟨m, h1, h2⟩
      exact ⟨_, extractReply_of_message body m h1 h2⟩

/-- C20, witness: a first choice whose message has a role but no content. -/
theorem reply_text_unchecked_witness :
    ingestResponse
        { EllenAI.constructed with
            apiKey := "sk-demo", conversationHistory := [message "user" (.str "hi")] }
        { ok := true, status := 200, statusText := "OK",
          json := .ok (.obj [("choices",
            .arr [.obj [("message", .obj [("role", .str "assistant")])]])]) } =
      ({ EllenAI.constructed with
           apiKey := "sk-demo",
           conversationHistory :=
             [message "user" (.str "hi"), message "assistant" .undefined] },
       .ok .undefined) :=
  (reply_text_unchecked _ _
    (.obj [("choices", .arr [.obj [("message", .obj [("role", .str "assistant")])]])])
    (.obj [("role", .str "assistant")]) rfl rfl rfl rfl rfl).1

/-- C13.  Saving the provider deepseek with a matching key succeeds and sets
this.apiProvider, yet the object written under the key ellen_settings has the
five fields apiKey, model, maxTokens, temperature and theme only: it has no
apiProvider field, although loadSettings reads settings.apiProvider from the
same key. -/
theorem saved_blob_lacks_apiProvider :
    EllenAI.constructed.saveSettings
        { apiKey := "dp-demo", apiProvider := "deepseek", model := "deepseek-chat",
          maxTokens := .fin 2000, temperature := .fin 1, theme := "dark" } [] =
      ({ EllenAI.constructed with
           apiKey := "dp-demo", apiProvider := "deepseek", model := "deepseek-chat",
           maxTokens := .fin 2000, temperature := .fin 1 },
       [("ellen_settings", .json (.obj
          [("apiKey", .str "dp-demo"), ("model", .str "deepseek-chat"),
           ("maxTokens", .num (.fin 2000)), ("temperature", .num (.fin 1)),
           ("theme", .str "dark")]))],
       .saved "dark") ∧
    ownField (.obj
        [("apiKey", .str "dp-demo"), ("model", .str "deepseek-chat"),
         ("maxTokens", .num (.fin 2000)), ("temperature", .num (.fin 1)),
         ("theme", .str "dark")]) "apiProvider" = none ∧
    settingsKey = "ellen_settings" :=
  ⟨rfl, rfl, rfl⟩

/-- C14.  For a known provider with descriptor d and the trimmed key k,
saveSettings saves exactly when k is empty or k starts with d.keyFormat.
Otherwise it returns after the notification with the instance and the storage
unchanged.  When it saves, the five fields hold the submitted values and the
settings object is written under the settings key. -/
theorem credential_check (st : EllenAI) (form : SettingsForm) (storage : Storage)
    (d : ProviderDescriptor) (hp : providers.lookup form.apiProvider = some d) :
    ((∃ theme, (st.saveSettings form storage).2.2 = .saved theme) ↔
      (jsTrim form.apiKey = "" ∨
        ∃ rest, (jsTrim form.apiKey).data = d.keyFormat.data ++ rest)) ∧
    (¬ (jsTrim form.apiKey = "" ∨
        ∃ rest, (jsTrim form.apiKey).data = d.keyFormat.data ++ rest) →
      st.saveSettings form storage =
        (st, storage,
         .rejected ("Invalid API key format. " ++ d.name ++ " keys start with \"" ++
           d.keyFormat ++ "\""))) ∧
    ((jsTrim form.apiKey = "" ∨
        ∃ rest, (jsTrim form.apiKey).data = d.keyFormat.data ++ rest) →
      st.saveSettings form storage =
        ({ st with apiKey := jsTrim form.apiKey, apiProvider := form.apiProvider,
                   model := form.model, maxTokens := form.maxTokens,
                   temperature := form.temperature },
         setItem storage settingsKey (.json (jsonOfFlat (.obj
           [("apiKey", .str (jsTrim form.apiKey)),
            ("model", .str form.model),
            ("maxTokens", .num form.maxTokens),
            ("temperature", .num form.temperature),
            ("theme", .str form.theme)]))),
         .saved form.theme)) := by
  have hl := lookupProvider_of_lookup _ _ hp
  have hd := keyFormat_ne_empty _ _ hp
  have hrej : ¬ (jsTrim form.apiKey = "" ∨
        ∃ rest, (jsTrim form.apiKey).data = d.keyFormat.data ++ rest) →
      st.saveSettings form storage =
        (st, storage,
         .rejected ("Invalid API key format. " ++ d.name ++ " keys start with \"" ++
           d.keyFormat ++ "\"")) := by
    intro h
    unfold EllenAI.saveSettings
    simp only [hl, keyFormatCheck_rejects _ d hd h]
  have hacc : (jsTrim form.apiKey = "" ∨
        ∃ rest, (jsTrim form.apiKey).data = d.keyFormat.data ++ rest) →
      keyFormatCheck (jsTrim form.apiKey) (lookupProvider form.apiProvider) = .ok none := by
    intro h
    rw [hl]
    exact keyFormatCheck_accepts _ d h
  refine ⟨⟨?_, ?_⟩, hrej, fun h => saveSettings_accept st form storage (hacc h)⟩
  · rintro ⟨theme, hs⟩
    by_contra h
    rw [hrej h] at hs
    cases hs
  · intro h
    exact (saveSettings_saved_iff st form storage).mpr (hacc h)

/-- C14, witness: for openai the key dp-demo is rejected and the key sk-demo is
accepted. -/
theorem credential_check_witness :
    EllenAI.constructed.saveSettings
        { apiKey := "dp-demo", apiProvider := "openai", model := "gpt-4",
          maxTokens := .fin 2000, temperature := .fin 1, theme := "dark" } [] =
      (EllenAI.constructed, [],
       .rejected "Invalid API key format. OpenAI keys start with \"sk-\"") ∧
    (EllenAI.constructed.saveSettings
        { apiKey := " sk-demo ", apiProvider := "openai", model := "gpt-4",
          maxTokens := .fin 2000, temperature := .fin 1, theme := "dark" } []).1 =
      { EllenAI.constructed with
          apiKey := "sk-demo", apiProvider := "openai", model := "gpt-4",
          maxTokens := .fin 2000, temperature := .fin 1 } := by
  constructor
  · exact (credential_check EllenAI.constructed
      { apiKey := "dp-demo", apiProvider := "openai", model := "gpt-4",
        maxTokens := .fin 2000, temperature := .fin 1, theme := "dark" } []
      _ rfl).2.1 (by
        rintro (h | ⟨rest, h⟩)
        · exact absurd h (by decide)
        · change ['d', 'p', '-', 'd', 'e', 'm', 'o'] = 's' :: 'k' :: '-' :: rest at h
          exact absurd (List.cons.inj h).1 (by decide))
  · rw [(credential_check EllenAI.constructed
      { apiKey := " sk-demo ", apiProvider := "openai", model := "gpt-4",
        maxTokens := .fin 2000, temperature := .fin 1, theme := "dark" } []
      _ rfl).2.2 (Or.inr ⟨"demo".data, rfl⟩)]
    rfl

/-- C19.  After a saveSettings that saved a non-empty model, a positive
maxTokens n and a finite temperature t, the saved instance holds the submitted
provider, while loadSettings on the resulting storage (on any instance) sets
apiKey to the trimmed key, model to the saved model, maxTokens to n,
temperature to t when t is not 0 and to 0.7 when t is 0, and apiProvider to
openai whatever provider was saved. -/
theorem settings_round_trip (st st2 : EllenAI) (form : SettingsForm) (storage : Storage)
    (n t : ℚ) (hsaved : ∃ theme, (st.saveSettings form storage).2.2 = .saved theme)
    (hmodel : form.model ≠ "") (hn : form.maxTokens = .fin n) (hpos : 0 < n)
    (ht : form.temperature = .fin t) :
    (st.saveSettings form storage).1.apiProvider = form.apiProvider ∧
    st2.loadSettings (st.saveSettings form storage).2.1 =
      some ({ st2 with apiKey := jsTrim form.apiKey, apiProvider := "openai",
                       model := form.model, maxTokens := .fin n,
                       temperature := .fin (if t = 0 then 7 / 10 else t) },
            .loaded (.str (if form.theme = "" then "dark" else form.theme))) := by
  have hcheck := (saveSettings_saved_iff st form storage).mp hsaved
  have hres := saveSettings_accept st form storage hcheck
  rw [hres]
  refine ⟨rfl, ?_⟩
  apply loadSettings_saved_blob _ _ _ _ _ n t _ hmodel (ne_of_gt hpos)
  rw [getItem_setItem, hn, ht, jsonOfFlat_settings]

/-- C19, witness: deepseek saved with temperature 0, then loaded into a fresh
instance: the provider comes back as openai, the model deepseek-chat is not one
of the openai models, and the temperature comes back as 0.7. -/
theorem settings_round_trip_witness :
    (EllenAI.constructed.saveSettings
        { apiKey := "dp-demo", apiProvider := "deepseek", model := "deepseek-chat",
          maxTokens := .fin 2000, temperature := .fin 0, theme := "light" } []).1.apiProvider
      = "deepseek" ∧
    EllenAI.constructed.loadSettings
        (EllenAI.constructed.saveSettings
          { apiKey := "dp-demo", apiProvider := "deepseek", model := "deepseek-chat",
            maxTokens := .fin 2000, temperature := .fin 0, theme := "light" } []).2.1 =
      some ({ EllenAI.constructed with
                apiKey := "dp-demo", apiProvider := "openai", model := "deepseek-chat",
                maxTokens := .fin 2000,
                temperature := .fin (if (0 : ℚ) = 0 then 7 / 10 else 0) },
            .loaded (.str (if "light" = "" then "dark" else "light"))) :=
  settings_round_trip EllenAI.constructed EllenAI.constructed
    { apiKey := "dp-demo", apiProvider := "deepseek", model := "deepseek-chat",
      maxTokens := .fin 2000, temperature := .fin 0, theme := "light" } [] 2000 0
    ⟨"light", rfl⟩ (by decide) rfl (by norm_num) rfl

/-- C15.  A response with a failing status whose JSON body is null: the body
has no error.message, so the claimed message is API Error: 500 Internal Server
Error, yet the read errorData.error of line 247 throws a TypeError, which is
what getAIResponse throws instead.  No assistant message is appended: the
history is the one left by the user-turn append. -/
theorem null_error_body_throws_type_error :
    errorMessageOf .null = none ∧
    ingestResponse
        { EllenAI.constructed with
            apiKey := "sk-demo", conversationHistory := [message "user" (.str "hi")] }
        { ok := false, status := 500, statusText := "Internal Server Error",
          json := .ok .null } =
      ({ EllenAI.constructed with
           apiKey := "sk-demo", conversationHistory := [message "user" (.str "hi")] },
       .error (.typeError "read error of null")) ∧
    ({ EllenAI.constructed with apiKey := "sk-demo" } : EllenAI).getAIResponse "hi"
        (fun _ => .fulfilled
          { ok := false, status := 500, statusText := "Internal Server Error",
            json := .ok .null }) =
      ({ EllenAI.constructed with
           apiKey := "sk-demo", conversationHistory := [message "user" (.str "hi")] },
       .error (.typeError "read error of null")) :=
  ⟨rfl, rfl, rfl⟩

/-- C16.  handleError classifies error.message by the first match in this
order: containing API key, then quota, then rate limit, then network or
fetch, each giving its fixed text; otherwise a non-empty message is shown as it
is and the empty message gives the default text.  The shown text is never
empty, and the missing-credential error of getAIResponse is shown as the
OpenAI key text for each of the four providers. -/
theorem handleError_classification (m : String) :
    (Contains m "API key" →
      handleError m = "Please configure your OpenAI API key in settings.") ∧
    (¬ Contains m "API key" → Contains m "quota" →
      handleError m = "API quota exceeded. Please check your OpenAI account.") ∧
    (¬ Contains m "API key" → ¬ Contains m "quota" → Contains m "rate limit" →
      handleError m = "Rate limit exceeded. Please wait a moment and try again.") ∧
    (¬ Contains m "API key" → ¬ Contains m "quota" → ¬ Contains m "rate limit" →
      (Contains m "network" ∨ Contains m "fetch") →
      handleError m = "Network error. Please check your internet connection.") ∧
    (¬ Contains m "API key" → ¬ Contains m "quota" → ¬ Contains m "rate limit" →
      ¬ Contains m "network" → ¬ Contains m "fetch" → m ≠ "" → handleError m = m) ∧
    handleError "" = "An unexpected error occurred. Please try again." ∧
    handleError m ≠ "" ∧
    (∀ (st : EllenAI) (msg : String) (net : Request → FetchOutcome),
      st.apiProvider ∈ knownProviders → st.apiKey = "" →
      ∃ text, (st.getAIResponse msg net).2 = .error (.error (.str text)) ∧
        handleError text = "Please configure your OpenAI API key in settings.") := by
  refine ⟨?_, ?_, ?_, ?_, ?_, by decide, ?_, ?_⟩
  · intro h1
    unfold handleError
    rw [if_pos ((jsIncludes_iff _ _).mpr h1)]
  · intro h1 h2
    unfold handleError
    rw [if_neg (by rw [jsIncludes_iff]; exact h1), if_pos ((jsIncludes_iff _ _).mpr h2)]
  · intro h1 h2 h3
    unfold handleError
    rw [if_neg (by rw [jsIncludes_iff]; exact h1), if_neg (by rw [jsIncludes_iff]; exact h2),
      if_pos ((jsIncludes_iff _ _).mpr h3)]
  · intro h1 h2 h3 h4
    unfold handleError
    rw [if_neg (by rw [jsIncludes_iff]; exact h1), if_neg (by rw [jsIncludes_iff]; exact h2),
      if_neg (by rw [jsIncludes_iff]; exact h3),
      if_pos (by simpa [Bool.or_eq_true, jsIncludes_iff] using h4)]
  · intro h1 h2 h3 h4 h5 h6
    unfold handleError
    rw [if_neg (by rw [jsIncludes_iff]; exact h1), if_neg (by rw [jsIncludes_iff]; exact h2),
      if_neg (by rw [jsIncludes_iff]; exact h3),
      if_neg (by simp [Bool.or_eq_true, jsIncludes_iff, h4, h5]), if_pos h6]
  · unfold handleError
    split
    · decide
    · split
      · decide
      · split
        · decide
        · split
          · decide
          · split
            · assumption
            · decide
  · intro st msg net hp hkey
    obtain ⟨d, -, hr⟩ := requestOf_missing_key st msg hp hkey
    refine ⟨_, ?_, handleError_missing_key d.name⟩
    rw [getAIResponse_of_requestOf_error st msg net _ hr]

/-- C16, witness: one message for each branch, and the missing-credential
error of the constructed instance. -/
theorem handleError_classification_witness :
    handleError "Incorrect API key provided" =
      "Please configure your OpenAI API key in settings." ∧
    handleError "You exceeded your current quota" =
      "API quota exceeded. Please check your OpenAI account." ∧
    handleError "You hit the rate limit" =
      "Rate limit exceeded. Please wait a moment and try again." ∧
    handleError "Failed to fetch" =
      "Network error. Please check your internet connection." ∧
    handleError "Invalid response format from API" = "Invalid response format from API" ∧
    (∃ text, (EllenAI.constructed.getAIResponse "hi" (replyWith "ok")).2 =
        .error (.error (.str text)) ∧
      handleError text = "Please configure your OpenAI API key in settings.") :=
  ⟨(handleError_classification _).1 ((jsIncludes_iff _ _).mp (by decide)),
   (handleError_classification _).2.1 ((jsIncludes_false_iff _ _).mp (by decide))
     ((jsIncludes_iff _ _).mp (by decide)),
   (handleError_classification _).2.2.1 ((jsIncludes_false_iff _ _).mp (by decide))
     ((jsIncludes_false_iff _ _).mp (by decide)) ((jsIncludes_iff _ _).mp (by decide)),
   (handleError_classification _).2.2.2.1 ((jsIncludes_false_iff _ _).mp (by decide))
     ((jsIncludes_false_iff _ _).mp (by decide)) ((jsIncludes_false_iff _ _).mp (by decide))
     (Or.inr ((jsIncludes_iff _ _).mp (by decide))),
   (handleError_classification _).2.2.2.2.1 ((jsIncludes_false_iff _ _).mp (by decide))
     ((jsIncludes_false_iff _ _).mp (by decide)) ((jsIncludes_false_iff _ _).mp (by decide))
     ((jsIncludes_false_iff _ _).mp (by decide)) ((jsIncludes_false_iff _ _).mp (by decide))
     (by decide),
   (handleError_classification "").2.2.2.2.2.2.2 EllenAI.constructed "hi" (replyWith "ok")
     (by decide) rfl⟩

/-- C17.  For a content without backtick and without asterisk, formatMessage
gives the content with every ampersand replaced by its entity, then every
less-than sign, then every greater-than sign, and at last every newline
replaced by a br tag.  That text is the content with each of these four
characters replaced once, in a single pass, so an ampersand written by a later
escape is not escaped again, and the output has exactly one less-than sign and
one greater-than sign for every newline of the content. -/
theorem formatMessage_escapes_first (content : String)
    (hb : '`' ∉ content.data) (ha : '*' ∉ content.data) :
    formatMessage content =
      String.mk (replaceChar '\n' "<br>".data (replaceChar '>' "&gt;".data
        (replaceChar '<' "&lt;".data (replaceChar '&' "&amp;".data content.data)))) ∧
    formatMessage content = String.mk (htmlPieces content.data) ∧
    (formatMessage content).data.count '<' = content.data.count '\n' ∧
    (formatMessage content).data.count '>' = content.data.count '\n' := by
  have h1 : formatMessage content =
      String.mk (replaceChar '\n' "<br>".data (escapeHtml content.data)) := by
    unfold formatMessage
    rw [formatChars_plain _ hb ha]
  have h2 : formatMessage content = String.mk (htmlPieces content.data) := by
    rw [h1, escape_chain_eq_pieces]
  refine ⟨h1, h2, ?_, ?_⟩
  · rw [h2]
    exact count_lt_htmlPieces _
  · rw [h2]
    exact count_gt_htmlPieces _

/-- C17, witness: a content with all four special characters. -/
theorem formatMessage_escapes_first_witness :
    formatMessage "a < b && c > d\nnext" =
      String.mk (htmlPieces "a < b && c > d\nnext".data) ∧
    String.mk (htmlPieces "a < b && c > d\nnext".data) =
      "a &lt; b &amp;&amp; c &gt; d<br>next" :=
  ⟨(formatMessage_escapes_first "a < b && c > d\nnext" (by decide) (by decide)).2.1,
   by decide⟩

/-- C21.  Response handling does not look at the provider.  For two instances
with known providers, keys set and the same history, to which fetch answers
with the same response, getAIResponse returns or throws the same value and
leaves the same history.  For a response with status ok and parsed body the
outcome is that of the one shape check, and an accepted body yields the value
at choices[0].message.content.  In particular a body with no choices field is
rejected for every known provider, anthropic and google included, whatever
other fields it carries, and only the user turn stays appended. -/
theorem response_handling_provider_independent (st1 st2 : EllenAI) (m : String)
    (net : Request → FetchOutcome) (r : Response)
    (hk1 : st1.apiKey ≠ "") (hk2 : st2.apiKey ≠ "")
    (hp1 : st1.apiProvider ∈ knownProviders) (hp2 : st2.apiProvider ∈ knownProviders)
    (hhist : st1.conversationHistory = st2.conversationHistory)
    (hnet : ∀ req, net req = .fulfilled r) :
    (st1.getAIResponse m net).2 = (st2.getAIResponse m net).2 ∧
    (st1.getAIResponse m net).1.conversationHistory =
      (st2.getAIResponse m net).1.conversationHistory ∧
    (∀ data, r.ok = true → r.json = .ok data →
      (st1.getAIResponse m net).2 = extractReply data ∧
      (∀ v, extractReply data = .ok v →
        ∃ msg, replyMessageOf data = some msg ∧
          v = (ownField msg "content").getD .undefined) ∧
      (ownField data "choices" = none →
        ∃ e, st1.getAIResponse m net =
          ({ st1 with conversationHistory := appendUserTurn st1.conversationHistory m },
           .error e))) := by
  have e1 := getAIResponse_of_fulfilled st1 m net r (requestOf_known_ok st1 m hk1 hp1) hnet
  have e2 := getAIResponse_of_fulfilled st2 m net r (requestOf_known_ok st2 m hk2 hp2) hnet
  have r1 := ingestResponse_result
    { st1 with conversationHistory := appendUserTurn st1.conversationHistory m } r
  have r2 := ingestResponse_result
    { st2 with conversationHistory := appendUserTurn st2.conversationHistory m } r
  have hres : (st1.getAIResponse m net).2 = (st2.getAIResponse m net).2 := by
    rw [e1, e2, r1.1, r2.1]
  refine ⟨hres, ?_, ?_⟩
  · have h1 := r1.2
    have h2 := r2.2
    rw [← e1] at h1
    rw [← e2] at h2
    rw [h1, h2, hres]
    simp only [hhist]
  · intro data hok hjson
    have hx : (st1.getAIResponse m net).2 = extractReply data := by
      rw [e1, r1.1]
      simp only [hok, hjson, if_true]
    refine ⟨hx, ?_, ?_⟩
    · intro v hv
      obtain ⟨msg, h1, -, h3⟩ := (extractReply_ok_iff data v).mp hv
      exact ⟨msg, h1, h3⟩
    · intro hno
      obtain ⟨e, he⟩ := extractReply_without_choices data hno
      refine ⟨e, ?_⟩
      rw [e1]
      unfold ingestResponse
      simp only [hok, hjson, he]
      rfl

/-- C21, witness: an Anthropic-style completion body, which has no choices
field, answered to an anthropic instance and to a google instance. -/
theorem response_handling_provider_independent_witness :
    (({ EllenAI.constructed with
          apiKey := "sk-ant-demo", apiProvider := "anthropic", model := "claude-2" } :
        EllenAI).getAIResponse "hi"
      (fun _ => .fulfilled
        { ok := true, status := 200, statusText := "OK",
          json := .ok (.obj [("completion", .str "Hello"),
                             ("stop_reason", .str "stop_sequence")]) })).2 =
    (({ EllenAI.constructed with
          apiKey := "AIza-demo", apiProvider := "google", model := "gemini-pro" } :
        EllenAI).getAIResponse "hi"
      (fun _ => .fulfilled
        { ok := true, status := 200, statusText := "OK",
          json := .ok (.obj [("completion", .str "Hello"),
                             ("stop_reason", .str "stop_sequence")]) })).2 ∧
    ({ EllenAI.constructed with
          apiKey := "sk-ant-demo", apiProvider := "anthropic", model := "claude-2" } :
        EllenAI).getAIResponse "hi"
      (fun _ => .fulfilled
        { ok := true, status := 200, statusText := "OK",
          json := .ok (.obj [("completion", .str "Hello"),
                             ("stop_reason", .str "stop_sequence")]) }) =
      ({ EllenAI.constructed with
           apiKey := "sk-ant-demo", apiProvider := "anthropic", model := "claude-2",
           conversationHistory := [message "user" (.str "hi")] },
       .error (.error (.str "Invalid response format from API"))) :=
  ⟨(response_handling_provider_independent
      { EllenAI.constructed with
          apiKey := "sk-ant-demo", apiProvider := "anthropic", model := "claude-2" }
      { EllenAI.constructed with
          apiKey := "AIza-demo", apiProvider := "google", model := "gemini-pro" }
      "hi" _
      { ok := true, status := 200, statusText := "OK",
        json := .ok (.obj [("completion", .str "Hello"),
                           ("stop_reason", .str "stop_sequence")]) }
      (by decide) (by decide) (by decide) (by decide) rfl (fun _ => rfl)).1,
   rfl⟩

end Apps
